import Mathlib

/-!
# RiskDash — verification of the risk classifier, aggregator and display-tier mapper

Shallow embedding of the RiskDash core (src/src/utils.js `calculateRisk`,
src/src/aggregation.js, src/src/colorClassification.js, src/thresholds.js).

Modelling conventions:
* JS numbers that flow through well-typed entity records are modelled as `ℚ`
  (every comparison the code performs on float64 values is exact, so `ℚ`
  is a faithful idealization for comparisons and linear arithmetic).
* An optional numeric field (`null` in the source data model, see
  `createBoatData` which initialises every optional field to `null`) is
  `Option ℚ`; `none` is JS `null`.
* `new Date()` (the current time, sampled by `scanAge`) is an explicit
  `now : ℤ` parameter (epoch milliseconds).
* A dynamically-typed JS value (needed to settle the malformed-input claim)
  is modelled separately by `JSVal` further below.
-/

/-- Risk tiers, `'LOW' | 'MED' | 'HIGH'` in the source. -/
inductive RiskLevel
  | LOW
  | MED
  | HIGH
deriving DecidableEq, Repr

/-- Severity rank: LOW < MED < HIGH. -/
def RiskLevel.rank : RiskLevel → ℕ
  | .LOW => 0
  | .MED => 1
  | .HIGH => 2

/-- The two telemetry networks ("enclaves") of an entity: NIPR and SIPR. -/
inductive Network
  | nipr
  | sipr
deriving DecidableEq, Repr

/--
Reason strings of `calculateRisk`, structured.  Each constructor stands for one
template literal of the source; the `ℚ` payload is the interpolated field value.
The only template whose text contains the substring `"VRAM data"` is
`'No VRAM data'` (all other templates interpolate a number, rendered with
digits, `.`, `-`, `%` or `d`, so no interpolation can produce that substring).
`lowTruePolicy`/`lowRawPolicy` are the LOW-stage templates `'… TruePolicy: …'` /
`'… RawPolicy: …'` which differ (no space) from the HIGH/MED templates.
-/
inductive Reason
  | breakfix (net : Network) (v : ℚ)      -- `${net} Breakfix: ${v}`
  | noVramData                            -- 'No VRAM data'
  | prodComp (net : Network) (v : ℚ)      -- `${net} Prod: ${v.toFixed(1)}%`
  | vph (net : Network) (v : ℚ)           -- `${net} VPH: ${v.toFixed(2)}`
  | scan (net : Network) (days : ℚ)       -- `${net} Scan: ${v}d`
  | truePolicy (net : Network) (v : ℚ)    -- `${net} True Policy: ${v.toFixed(1)}%`
  | rawPolicy (net : Network) (v : ℚ)     -- `${net} Raw Policy: ${v.toFixed(1)}%`
  | tams (v : ℚ)                          -- `TAMs: ${v}`
  | lowTruePolicy (net : Network) (v : ℚ) -- `${net} TruePolicy: ${v.toFixed(1)}%`
  | lowRawPolicy (net : Network) (v : ℚ)  -- `${net} RawPolicy: ${v.toFixed(1)}%`
  | scanExempt                            -- 'Scan Exempt'
deriving DecidableEq, Repr

/-- `r.includes('VRAM data')` of the source, on structured reasons: only the
`'No VRAM data'` template contains that substring. -/
def mentionsVramData : Reason → Bool
  | .noVramData => true
  | _ => false

/-- Which network's field value a reason exposes, if any. -/
def reasonNet : Reason → Option Network
  | .breakfix n _ => some n
  | .prodComp n _ => some n
  | .vph n _ => some n
  | .scan n _ => some n
  | .truePolicy n _ => some n
  | .rawPolicy n _ => some n
  | .lowTruePolicy n _ => some n
  | .lowRawPolicy n _ => some n
  | .noVramData => none
  | .tams _ => none
  | .scanExempt => none

/--
The enumerated threshold configuration (src/thresholds.js).  A field holds
`none` when the key is absent from the supplied config object (JS
`undefined`); `defaultThresholds` below sets every key.
-/
structure Config where
  low_vph : Option ℚ := none
  low_scan_age_days : Option ℚ := none
  low_product_compliance : Option ℚ := none
  low_true_policy_compliance : Option ℚ := none
  low_raw_policy_compliance : Option ℚ := none
  low_tam_past_due : Option ℚ := none
  med_ra_vph : Option ℚ := none
  med_ess_compliance : Option ℚ := none
  med_scan_age_days : Option ℚ := none
  med_tam_past_due : Option ℚ := none
  med_true_policy_compliance : Option ℚ := none
  med_raw_policy_compliance : Option ℚ := none
  auto_high_ra_vph : Option ℚ := none
  auto_high_scan_age_days : Option ℚ := none
  high_ess_compliance : Option ℚ := none
  high_raw_policy_compliance : Option ℚ := none
  high_product_compliance : Option ℚ := none
  high_tam_past_due : Option ℚ := none
  color_product_green : Option ℚ := none
  color_product_red : Option ℚ := none
  color_policy_green : Option ℚ := none
  color_policy_red : Option ℚ := none
  color_policy_raw_green : Option ℚ := none
  color_policy_raw_red : Option ℚ := none
  color_vph_green : Option ℚ := none
  color_vph_red : Option ℚ := none
  color_scan_green : Option ℚ := none
  color_scan_red : Option ℚ := none
  hq_color_product_green : Option ℚ := none
  hq_color_product_red : Option ℚ := none
  hq_color_policy_green : Option ℚ := none
  hq_color_policy_red : Option ℚ := none
  hq_color_policy_raw_green : Option ℚ := none
  hq_color_policy_raw_red : Option ℚ := none
  low_product_compliance_enabled : Option ℚ := none
  low_true_policy_compliance_enabled : Option ℚ := none
  low_raw_policy_compliance_enabled : Option ℚ := none
  low_tam_past_due_enabled : Option ℚ := none
deriving DecidableEq, Repr

/-- `defaultThresholds` of src/thresholds.js, every key present. -/
def defaultThresholds : Config where
  low_vph := some (mkRat 5 2)
  low_scan_age_days := some 14
  low_product_compliance := some 95
  low_true_policy_compliance := some 95
  low_raw_policy_compliance := some 95
  low_tam_past_due := some 5
  med_ra_vph := some (mkRat 7 2)
  med_ess_compliance := some 95
  med_scan_age_days := some 14
  med_tam_past_due := some 10
  med_true_policy_compliance := some 95
  med_raw_policy_compliance := some 0
  auto_high_ra_vph := some 999
  auto_high_scan_age_days := some 999
  high_ess_compliance := some 90
  high_raw_policy_compliance := some 0
  high_product_compliance := some 0
  high_tam_past_due := some 20
  color_product_green := some 95
  color_product_red := some 90
  color_policy_green := some 95
  color_policy_red := some 90
  color_policy_raw_green := some 95
  color_policy_raw_red := some 90
  color_vph_green := some (mkRat 5 2)
  color_vph_red := some (mkRat 7 2)
  color_scan_green := some 14
  color_scan_red := some 14
  hq_color_product_green := some 95
  hq_color_product_red := some 90
  hq_color_policy_green := some 95
  hq_color_policy_red := some 90
  hq_color_policy_raw_green := some 95
  hq_color_policy_raw_red := some 90
  low_product_compliance_enabled := some 1
  low_true_policy_compliance_enabled := some 0
  low_raw_policy_compliance_enabled := some 0
  low_tam_past_due_enabled := some 0

/-- The empty config object `{}`: every key absent. -/
def emptyConfig : Config := {}

/--
JS `x || d` applied to a threshold lookup with literal fallback `d`
(`t.low_vph || 2.5` …): an absent key (`undefined`) falls back to `d`,
and so does a present value of `0`, because `0` is falsy.  (For a
rational-valued key these are the only falsy cases.)
-/
def orDefault (v : Option ℚ) (d : ℚ) : ℚ :=
  match v with
  | none => d
  | some q => if q = 0 then d else q

/-- JS `x ?? d` (nullish coalescing): only an absent key falls back. -/
def nullishDefault (v : Option ℚ) (d : ℚ) : ℚ := v.getD d

/-- A scan-date cell: a value `new Date(d)` accepts (valid, with an epoch
timestamp in ms) or one it rejects (`NaN` time value). `Option JSDate` is the
field itself, `none` being `null`. -/
inductive JSDate
  | valid (t : ℤ)
  | invalid
deriving DecidableEq, Repr

/--
`scanAge` of the source (both copies are identical):
`null`/falsy date → `null`; invalid date → `null`; otherwise
`Math.floor((new Date() - date)/86400000)`, and `null` again when negative.
`now` is the sampled current time in epoch ms.
-/
def scanAge (now : ℤ) : Option JSDate → Option ℚ
  | none => none
  | some .invalid => none
  | some (.valid tms) =>
      let age : ℤ := (now - tms).fdiv 86400000
      if 0 ≤ age then some (age : ℚ) else none

/--
One fleet unit (`createBoatData` of src/dataModels.js), restricted to the
fields `calculateRisk` and the aggregation functions read.  Optional numeric
fields are `Option ℚ` (`none` = `null`); the scan-exempt flags default to
`false` in the source and are booleans.
-/
structure Boat where
  isNmci : Bool := false
  isic : String := ""
  tycom : String := ""
  riskLevel : String := "LOW"
  essNiprBreakfix : Option ℚ := none
  essSiprBreakfix : Option ℚ := none
  essNiprProductCompliance : Option ℚ := none
  essSiprProductCompliance : Option ℚ := none
  essNiprTruePolicy : Option ℚ := none
  essSiprTruePolicy : Option ℚ := none
  essNiprPolicyEnforced : Option ℚ := none
  essSiprPolicyEnforced : Option ℚ := none
  vramNiprRaVph : Option ℚ := none
  vramSiprRaVph : Option ℚ := none
  vramNiprScanDate : Option JSDate := none
  vramSiprScanDate : Option JSDate := none
  vramNiprAssets : Option ℚ := none
  vramSiprAssets : Option ℚ := none
  vramNiprScanExempt : Bool := false
  vramSiprScanExempt : Bool := false
  tamPastDue : Option ℚ := none
deriving DecidableEq, Repr

/-- `field !== null && field < thr` for an optional numeric field. -/
def jsLtB (v : Option ℚ) (thr : ℚ) : Bool :=
  match v with
  | none => false
  | some q => decide (q < thr)

/-- `field !== null && field > thr`. -/
def jsGtB (v : Option ℚ) (thr : ℚ) : Bool :=
  match v with
  | none => false
  | some q => decide (thr < q)

/-- `field !== null && field >= thr`. -/
def jsGeB (v : Option ℚ) (thr : ℚ) : Bool :=
  match v with
  | none => false
  | some q => decide (thr ≤ q)

/-- A guarded reason push: `if (cond) reasons.push(r)` contributes `[r]` or
nothing to the reason list. -/
def checkIf (c : Bool) (r : Reason) : List Reason :=
  if c then [r] else []

/-- `const nAge = isNmci ? null : scanAge(boat.vramNiprScanDate)`. -/
def nAgeOf (now : ℤ) (b : Boat) : Option ℚ :=
  if b.isNmci then none else scanAge now b.vramNiprScanDate

/-- `const sAge = scanAge(boat.vramSiprScanDate)`. -/
def sAgeOf (now : ℤ) (b : Boat) : Option ℚ :=
  scanAge now b.vramSiprScanDate

/-- `isNmci ? true : (scanDate !== null || raVph !== null || assets !== null)`.
(In this well-typed model an absent field is `null`, so `!== null` is
`Option.isSome`.) -/
def hasNiprVramData (b : Boat) : Bool :=
  if b.isNmci then true
  else b.vramNiprScanDate.isSome || b.vramNiprRaVph.isSome || b.vramNiprAssets.isSome

/-- `scanDate !== null || raVph !== null || assets !== null` on the SIPR side. -/
def hasSiprVramData (b : Boat) : Bool :=
  b.vramSiprScanDate.isSome || b.vramSiprRaVph.isSome || b.vramSiprAssets.isSome

def hasAnyVramData (b : Boat) : Bool :=
  hasNiprVramData b || hasSiprVramData b

/-! ### Stage 1 — HIGH triggers, in source order. -/

/-- Trigger 1 (NIPR): `!isNmci && (boat.essNiprBreakfix || 0) > 0`.
For a rational field `x || 0` is `x.getD 0`. -/
def bfNiprHigh (b : Boat) : List Reason :=
  checkIf (!b.isNmci && decide (0 < b.essNiprBreakfix.getD 0))
    (.breakfix .nipr (b.essNiprBreakfix.getD 0))

/-- Trigger 1 (SIPR): `(boat.essSiprBreakfix || 0) > 0`. -/
def bfSiprHigh (b : Boat) : List Reason :=
  checkIf (decide (0 < b.essSiprBreakfix.getD 0))
    (.breakfix .sipr (b.essSiprBreakfix.getD 0))

/-- Trigger 2: `!hasAnyVramData || (isNmci && !hasSiprVramData)`, also the
value of the `highDueToNoScans` flag. -/
def noVramTrig (b : Boat) : Bool :=
  !hasAnyVramData b || (b.isNmci && !hasSiprVramData b)

def noVramHigh (b : Boat) : List Reason :=
  checkIf (noVramTrig b) .noVramData

/-- Trigger 3 (NIPR): threshold `t.high_product_compliance || 50`, guarded by
`threshold > 0` (note: the `|| 50` fallback makes a configured `0` behave as
`50`, so the `> 0` guard never disables this check). -/
def prodHighNipr (b : Boat) (t : Config) : List Reason :=
  let thr := orDefault t.high_product_compliance 50
  checkIf (decide (0 < thr) && !b.isNmci && jsLtB b.essNiprProductCompliance thr)
    (.prodComp .nipr (b.essNiprProductCompliance.getD 0))

def prodHighSipr (b : Boat) (t : Config) : List Reason :=
  let thr := orDefault t.high_product_compliance 50
  checkIf (decide (0 < thr) && jsLtB b.essSiprProductCompliance thr)
    (.prodComp .sipr (b.essSiprProductCompliance.getD 0))

/-- Trigger 4 (NIPR): `vph > (t.auto_high_ra_vph || 5)`. -/
def vphHighNipr (b : Boat) (t : Config) : List Reason :=
  checkIf (!b.isNmci && jsGtB b.vramNiprRaVph (orDefault t.auto_high_ra_vph 5))
    (.vph .nipr (b.vramNiprRaVph.getD 0))

def vphHighSipr (b : Boat) (t : Config) : List Reason :=
  checkIf (jsGtB b.vramSiprRaVph (orDefault t.auto_high_ra_vph 5))
    (.vph .sipr (b.vramSiprRaVph.getD 0))

/-- Trigger 5 (NIPR): `nAge !== null && nAge > (t.auto_high_scan_age_days || 30)`. -/
def scanHighNipr (now : ℤ) (b : Boat) (t : Config) : List Reason :=
  checkIf (!b.isNmci && jsGtB (nAgeOf now b) (orDefault t.auto_high_scan_age_days 30))
    (.scan .nipr ((nAgeOf now b).getD 0))

def scanHighSipr (now : ℤ) (b : Boat) (t : Config) : List Reason :=
  checkIf (jsGtB (sAgeOf now b) (orDefault t.auto_high_scan_age_days 30))
    (.scan .sipr ((sAgeOf now b).getD 0))

/-- Trigger 6 (NIPR): threshold `t.high_ess_compliance || 0` guarded by `> 0`. -/
def truePolHighNipr (b : Boat) (t : Config) : List Reason :=
  let thr := orDefault t.high_ess_compliance 0
  checkIf (decide (0 < thr) && !b.isNmci && jsLtB b.essNiprTruePolicy thr)
    (.truePolicy .nipr (b.essNiprTruePolicy.getD 0))

def truePolHighSipr (b : Boat) (t : Config) : List Reason :=
  let thr := orDefault t.high_ess_compliance 0
  checkIf (decide (0 < thr) && jsLtB b.essSiprTruePolicy thr)
    (.truePolicy .sipr (b.essSiprTruePolicy.getD 0))

/-- Trigger 6b (NIPR): threshold `t.high_raw_policy_compliance || 0` guarded by `> 0`. -/
def rawPolHighNipr (b : Boat) (t : Config) : List Reason :=
  let thr := orDefault t.high_raw_policy_compliance 0
  checkIf (decide (0 < thr) && !b.isNmci && jsLtB b.essNiprPolicyEnforced thr)
    (.rawPolicy .nipr (b.essNiprPolicyEnforced.getD 0))

def rawPolHighSipr (b : Boat) (t : Config) : List Reason :=
  let thr := orDefault t.high_raw_policy_compliance 0
  checkIf (decide (0 < thr) && jsLtB b.essSiprPolicyEnforced thr)
    (.rawPolicy .sipr (b.essSiprPolicyEnforced.getD 0))

/-- Trigger 7: `(boat.tamPastDue || 0) > (t.high_tam_past_due || 20)`. -/
def tamHigh (b : Boat) (t : Config) : List Reason :=
  checkIf (decide (orDefault t.high_tam_past_due 20 < b.tamPastDue.getD 0))
    (.tams (b.tamPastDue.getD 0))

/-- All HIGH-stage reasons, in the exact evaluation order of the source.
`level === 'HIGH'` after stage 1 iff this list is nonempty (each trigger
sets the level and pushes exactly one reason). -/
def highReasons (now : ℤ) (b : Boat) (t : Config) : List Reason :=
  bfNiprHigh b ++ bfSiprHigh b ++ noVramHigh b ++
  prodHighNipr b t ++ prodHighSipr b t ++
  vphHighNipr b t ++ vphHighSipr b t ++
  scanHighNipr now b t ++ scanHighSipr now b t ++
  truePolHighNipr b t ++ truePolHighSipr b t ++
  rawPolHighNipr b t ++ rawPolHighSipr b t ++
  tamHigh b t

/-! ### Stage 2 — MED counting, in source order.  The source increments
`medConditionCount` exactly when it pushes onto `medReasons`, so the count
equals the length of the collected list. -/

def vphMedNipr (b : Boat) (t : Config) : List Reason :=
  checkIf (!b.isNmci && jsGtB b.vramNiprRaVph (orDefault t.med_ra_vph (mkRat 7 2)))
    (.vph .nipr (b.vramNiprRaVph.getD 0))

def vphMedSipr (b : Boat) (t : Config) : List Reason :=
  checkIf (jsGtB b.vramSiprRaVph (orDefault t.med_ra_vph (mkRat 7 2)))
    (.vph .sipr (b.vramSiprRaVph.getD 0))

def prodMedNipr (b : Boat) (t : Config) : List Reason :=
  checkIf (!b.isNmci && jsLtB b.essNiprProductCompliance (orDefault t.med_ess_compliance 95))
    (.prodComp .nipr (b.essNiprProductCompliance.getD 0))

def prodMedSipr (b : Boat) (t : Config) : List Reason :=
  checkIf (jsLtB b.essSiprProductCompliance (orDefault t.med_ess_compliance 95))
    (.prodComp .sipr (b.essSiprProductCompliance.getD 0))

/-- Condition 2b: threshold `t.med_true_policy_compliance || 0` guarded by `> 0`. -/
def truePolMedNipr (b : Boat) (t : Config) : List Reason :=
  let thr := orDefault t.med_true_policy_compliance 0
  checkIf (decide (0 < thr) && !b.isNmci && jsLtB b.essNiprTruePolicy thr)
    (.truePolicy .nipr (b.essNiprTruePolicy.getD 0))

def truePolMedSipr (b : Boat) (t : Config) : List Reason :=
  let thr := orDefault t.med_true_policy_compliance 0
  checkIf (decide (0 < thr) && jsLtB b.essSiprTruePolicy thr)
    (.truePolicy .sipr (b.essSiprTruePolicy.getD 0))

def rawPolMedNipr (b : Boat) (t : Config) : List Reason :=
  let thr := orDefault t.med_raw_policy_compliance 0
  checkIf (decide (0 < thr) && !b.isNmci && jsLtB b.essNiprPolicyEnforced thr)
    (.rawPolicy .nipr (b.essNiprPolicyEnforced.getD 0))

def rawPolMedSipr (b : Boat) (t : Config) : List Reason :=
  let thr := orDefault t.med_raw_policy_compliance 0
  checkIf (decide (0 < thr) && jsLtB b.essSiprPolicyEnforced thr)
    (.rawPolicy .sipr (b.essSiprPolicyEnforced.getD 0))

def scanMedNipr (now : ℤ) (b : Boat) (t : Config) : List Reason :=
  checkIf (!b.isNmci && jsGtB (nAgeOf now b) (orDefault t.med_scan_age_days 14))
    (.scan .nipr ((nAgeOf now b).getD 0))

def scanMedSipr (now : ℤ) (b : Boat) (t : Config) : List Reason :=
  checkIf (jsGtB (sAgeOf now b) (orDefault t.med_scan_age_days 14))
    (.scan .sipr ((sAgeOf now b).getD 0))

def tamMed (b : Boat) (t : Config) : List Reason :=
  checkIf (decide (orDefault t.med_tam_past_due 10 < b.tamPastDue.getD 0))
    (.tams (b.tamPastDue.getD 0))

def medReasons (now : ℤ) (b : Boat) (t : Config) : List Reason :=
  vphMedNipr b t ++ vphMedSipr b t ++
  prodMedNipr b t ++ prodMedSipr b t ++
  truePolMedNipr b t ++ truePolMedSipr b t ++
  rawPolMedNipr b t ++ rawPolMedSipr b t ++
  scanMedNipr now b t ++ scanMedSipr now b t ++
  tamMed b t

/-! ### Stage 3 — strict LOW validation. `meetsLowCriteria` starts `true` and
each failing check sets it `false`; so it ends `true` iff no check fails. -/

/-- `(t.low_true_policy_compliance_enabled ?? 0) === 1`. -/
def truePolicyEnabled (t : Config) : Bool :=
  decide (nullishDefault t.low_true_policy_compliance_enabled 0 = 1)

def rawPolicyEnabled (t : Config) : Bool :=
  decide (nullishDefault t.low_raw_policy_compliance_enabled 0 = 1)

def tamEnabled (t : Config) : Bool :=
  decide (nullishDefault t.low_tam_past_due_enabled 0 = 1)

def lowVphFailNipr (b : Boat) (t : Config) : Bool :=
  !b.isNmci && jsGeB b.vramNiprRaVph (orDefault t.low_vph (mkRat 5 2))

def lowVphFailSipr (b : Boat) (t : Config) : Bool :=
  jsGeB b.vramSiprRaVph (orDefault t.low_vph (mkRat 5 2))

/-- Product compliance is always required for LOW (`productCompEnabled = true`
is hardcoded; the `low_product_compliance_enabled` key is never read). -/
def lowProdFailNipr (b : Boat) (t : Config) : Bool :=
  !b.isNmci && jsLtB b.essNiprProductCompliance (orDefault t.low_product_compliance 95)

def lowProdFailSipr (b : Boat) (t : Config) : Bool :=
  jsLtB b.essSiprProductCompliance (orDefault t.low_product_compliance 95)

def lowTruePolFailNipr (b : Boat) (t : Config) : Bool :=
  truePolicyEnabled t && !b.isNmci &&
    jsLtB b.essNiprTruePolicy (orDefault t.low_true_policy_compliance 95)

def lowTruePolFailSipr (b : Boat) (t : Config) : Bool :=
  truePolicyEnabled t &&
    jsLtB b.essSiprTruePolicy (orDefault t.low_true_policy_compliance 95)

def lowRawPolFailNipr (b : Boat) (t : Config) : Bool :=
  rawPolicyEnabled t && !b.isNmci &&
    jsLtB b.essNiprPolicyEnforced (orDefault t.low_raw_policy_compliance 95)

def lowRawPolFailSipr (b : Boat) (t : Config) : Bool :=
  rawPolicyEnabled t &&
    jsLtB b.essSiprPolicyEnforced (orDefault t.low_raw_policy_compliance 95)

def lowScanFailNipr (now : ℤ) (b : Boat) (t : Config) : Bool :=
  !b.isNmci && jsGtB (nAgeOf now b) (orDefault t.low_scan_age_days 14)

def lowScanFailSipr (now : ℤ) (b : Boat) (t : Config) : Bool :=
  jsGtB (sAgeOf now b) (orDefault t.low_scan_age_days 14)

def lowTamFail (b : Boat) (t : Config) : Bool :=
  tamEnabled t && decide (orDefault t.low_tam_past_due 5 < b.tamPastDue.getD 0)

def meetsLowCriteria (now : ℤ) (b : Boat) (t : Config) : Bool :=
  !(lowVphFailNipr b t || lowVphFailSipr b t ||
    lowProdFailNipr b t || lowProdFailSipr b t ||
    lowTruePolFailNipr b t || lowTruePolFailSipr b t ||
    lowRawPolFailNipr b t || lowRawPolFailSipr b t ||
    lowScanFailNipr now b t || lowScanFailSipr now b t ||
    lowTamFail b t)

/-- The reasons pushed when LOW validation fails (the source re-evaluates the
same conditions, pushing in this order, with the LOW-stage policy templates). -/
def lowReasons (now : ℤ) (b : Boat) (t : Config) : List Reason :=
  checkIf (lowVphFailNipr b t) (.vph .nipr (b.vramNiprRaVph.getD 0)) ++
  checkIf (lowVphFailSipr b t) (.vph .sipr (b.vramSiprRaVph.getD 0)) ++
  checkIf (lowProdFailNipr b t) (.prodComp .nipr (b.essNiprProductCompliance.getD 0)) ++
  checkIf (lowProdFailSipr b t) (.prodComp .sipr (b.essSiprProductCompliance.getD 0)) ++
  checkIf (lowTruePolFailNipr b t) (.lowTruePolicy .nipr (b.essNiprTruePolicy.getD 0)) ++
  checkIf (lowTruePolFailSipr b t) (.lowTruePolicy .sipr (b.essSiprTruePolicy.getD 0)) ++
  checkIf (lowRawPolFailNipr b t) (.lowRawPolicy .nipr (b.essNiprPolicyEnforced.getD 0)) ++
  checkIf (lowRawPolFailSipr b t) (.lowRawPolicy .sipr (b.essSiprPolicyEnforced.getD 0)) ++
  checkIf (lowScanFailNipr now b t) (.scan .nipr ((nAgeOf now b).getD 0)) ++
  checkIf (lowScanFailSipr now b t) (.scan .sipr ((sAgeOf now b).getD 0)) ++
  checkIf (lowTamFail b t) (.tams (b.tamPastDue.getD 0))

/-! ### Stage 4 — scan-exempt downgrade. -/

/-- NMCI boats need BOTH enclaves exempt; otherwise either suffices. -/
def isScanExempt (b : Boat) : Bool :=
  if b.isNmci then b.vramNiprScanExempt && b.vramSiprScanExempt
  else b.vramNiprScanExempt || b.vramSiprScanExempt

/-- Result record `{ level, reasons }`. -/
structure RiskResult where
  level : RiskLevel
  reasons : List Reason
deriving DecidableEq, Repr

/--
`calculateRisk(boat, thresholds)` of src/src/utils.js.  `cfg = none` models a
`null`/`undefined`/omitted thresholds argument (both the default parameter and
the `thresholds || defaultThresholds` guard resolve to `defaultThresholds`).
-/
def calculateRisk (now : ℤ) (b : Boat) (cfg : Option Config) : RiskResult :=
  let t := cfg.getD defaultThresholds
  let hr := highReasons now b t
  if hr = [] then
    let mr := medReasons now b t
    if 2 ≤ mr.length then ⟨.MED, mr⟩
    else if !meetsLowCriteria now b t then ⟨.MED, lowReasons now b t⟩
    else ⟨.LOW, []⟩
  else
    if isScanExempt b && noVramTrig b && hr.all mentionsVramData then
      ⟨.MED, hr ++ [.scanExempt]⟩
    else ⟨.HIGH, hr⟩

/-! ## Display-tier (color) classification — src/src/colorClassification.js -/

/-- CSS class returned by the color classifiers: `''` (no value),
`'risk-low'` (best), `'risk-med'` (mid), `'risk-high'` (worst). -/
inductive ColorClass
  | blank
  | low
  | med
  | high
deriving DecidableEq, Repr

/-- `vphClass` (lower is better, boundary gets the better color):
`v <= green → 'risk-low'`, `v > red → 'risk-high'`, else `'risk-med'`;
`null`/`undefined` → `''`. -/
def vphClass (v : Option ℚ) (t : Config) : ColorClass :=
  match v with
  | none => .blank
  | some q =>
      let greenThreshold := orDefault t.color_vph_green (mkRat 5 2)
      let redThreshold := orDefault t.color_vph_red (mkRat 7 2)
      if q ≤ greenThreshold then .low
      else if redThreshold < q then .high
      else .med

/-- `prodCompClass` (higher is better): `v >= green → 'risk-low'`,
`v < red → 'risk-high'`, else `'risk-med'`. -/
def prodCompClass (v : Option ℚ) (t : Config) : ColorClass :=
  match v with
  | none => .blank
  | some q =>
      let greenThreshold := orDefault t.color_product_green 95
      let redThreshold := orDefault t.color_product_red 90
      if greenThreshold ≤ q then .low
      else if q < redThreshold then .high
      else .med

/-! ## Aggregation — src/src/aggregation.js -/

/-- One entry of the ISIC registry handed in through `settings.isics`. -/
structure ISICInfo where
  isic_name : String
  isic_short : String
  tycom : String
deriving DecidableEq, Repr

structure Settings where
  isics : List ISICInfo := []
deriving DecidableEq, Repr

/-- `settings.isics.find(i => i.isic_name === b.isic)` with the synthesized
fallback `{ isic_name: b.isic, isic_short: b.isic.slice(0, 6), tycom: b.tycom }`. -/
def isicInfoFor (settings : Settings) (b : Boat) : ISICInfo :=
  match settings.isics.find? (fun i => i.isic_name == b.isic) with
  | some i => i
  | none => ⟨b.isic, b.isic.take 6, b.tycom⟩

/-- Insert one boat into the ISIC groups, preserving first-seen group order
(the source's `groups` object keyed by `b.isic`). -/
def addBoatToGroups (settings : Settings) (groups : List (ISICInfo × List Boat))
    (b : Boat) : List (ISICInfo × List Boat) :=
  if groups.any (fun g => g.1.isic_name == b.isic) then
    groups.map (fun g => if g.1.isic_name == b.isic then (g.1, g.2 ++ [b]) else g)
  else
    groups ++ [(isicInfoFor settings b, [b])]

def groupByIsic (boats : List Boat) (settings : Settings) : List (ISICInfo × List Boat) :=
  boats.foldl (addBoatToGroups settings) []

/-- The running sums/counters of the per-group aggregation loop. -/
structure SumState where
  nProdSum : ℚ := 0
  nProdCnt : ℕ := 0
  nPolSum : ℚ := 0
  nPolCnt : ℕ := 0
  nPolRawSum : ℚ := 0
  nPolRawCnt : ℕ := 0
  sProdSum : ℚ := 0
  sProdCnt : ℕ := 0
  sPolSum : ℚ := 0
  sPolCnt : ℕ := 0
  sPolRawSum : ℚ := 0
  sPolRawCnt : ℕ := 0
  niprBreakfixSum : ℚ := 0
  siprBreakfixSum : ℚ := 0
  highRiskCount : ℕ := 0
  medRiskCount : ℕ := 0
  lowRiskCount : ℕ := 0
  scanExemptCount : ℕ := 0
deriving DecidableEq, Repr

/-- First paragraph of the loop body: `// Skip NIPR values for NMCI boats`. -/
def aggStepNipr (st0 : SumState) (b : Boat) : SumState :=
  if b.isNmci then st0 else
    let s := { st0 with niprBreakfixSum := st0.niprBreakfixSum + b.essNiprBreakfix.getD 0 }
    let s :=
      match b.essNiprProductCompliance with
      | some q => { s with nProdSum := s.nProdSum + q, nProdCnt := s.nProdCnt + 1 }
      | none => s
    let s :=
      match b.essNiprTruePolicy with
      | some q => { s with nPolSum := s.nPolSum + q, nPolCnt := s.nPolCnt + 1 }
      | none => s
    match b.essNiprPolicyEnforced with
    | some q => { s with nPolRawSum := s.nPolRawSum + q, nPolRawCnt := s.nPolRawCnt + 1 }
    | none => s

/-- Second paragraph: the unconditional SIPR sums. -/
def aggStepSipr (st1 : SumState) (b : Boat) : SumState :=
  let st2 := { st1 with siprBreakfixSum := st1.siprBreakfixSum + b.essSiprBreakfix.getD 0 }
  let st3 :=
    match b.essSiprProductCompliance with
    | some q => { st2 with sProdSum := st2.sProdSum + q, sProdCnt := st2.sProdCnt + 1 }
    | none => st2
  let st4 :=
    match b.essSiprTruePolicy with
    | some q => { st3 with sPolSum := st3.sPolSum + q, sPolCnt := st3.sPolCnt + 1 }
    | none => st3
  match b.essSiprPolicyEnforced with
  | some q => { st4 with sPolRawSum := st4.sPolRawSum + q, sPolRawCnt := st4.sPolRawCnt + 1 }
  | none => st4

/-- Third paragraph: `// Risk counts`. -/
def aggStepRisk (st5 : SumState) (b : Boat) : SumState :=
  if b.riskLevel == "HIGH" then { st5 with highRiskCount := st5.highRiskCount + 1 }
  else if b.riskLevel == "MED" then { st5 with medRiskCount := st5.medRiskCount + 1 }
  else if b.riskLevel == "LOW" then { st5 with lowRiskCount := st5.lowRiskCount + 1 }
  else st5

/-- Fourth paragraph: `// Scan exempt count`. -/
def aggStepExempt (st6 : SumState) (b : Boat) : SumState :=
  if b.vramNiprScanExempt || b.vramSiprScanExempt then
    { st6 with scanExemptCount := st6.scanExemptCount + 1 }
  else st6

/-- The body of `for (const b of g.boats) { … }` in `aggregateByISIC`, its
four paragraphs in source order. -/
def aggStep (st0 : SumState) (b : Boat) : SumState :=
  aggStepExempt (aggStepRisk (aggStepSipr (aggStepNipr st0 b) b) b) b

/-- One per-ISIC aggregation record. -/
structure ISICAgg where
  isicName : String
  isicShort : String
  tycom : String
  boatCount : ℕ
  niprBreakfixSum : ℚ
  siprBreakfixSum : ℚ
  highRiskCount : ℕ
  medRiskCount : ℕ
  lowRiskCount : ℕ
  scanExemptCount : ℕ
  niprProdCompAvg : ℚ
  niprPolEnfAvg : ℚ
  niprPolRawAvg : ℚ
  siprProdCompAvg : ℚ
  siprPolEnfAvg : ℚ
  siprPolRawAvg : ℚ
deriving DecidableEq, Repr

/-- Build one group's aggregation record: run the loop, then compute the
averages `cnt > 0 ? Math.min(100, sum / cnt) : 0`. -/
def mkAgg (info : ISICInfo) (boats : List Boat) : ISICAgg :=
  let st := boats.foldl aggStep {}
  { isicName := info.isic_name
    isicShort := info.isic_short
    tycom := info.tycom
    boatCount := boats.length
    niprBreakfixSum := st.niprBreakfixSum
    siprBreakfixSum := st.siprBreakfixSum
    highRiskCount := st.highRiskCount
    medRiskCount := st.medRiskCount
    lowRiskCount := st.lowRiskCount
    scanExemptCount := st.scanExemptCount
    niprProdCompAvg := if 0 < st.nProdCnt then min 100 (st.nProdSum / (st.nProdCnt : ℚ)) else 0
    niprPolEnfAvg := if 0 < st.nPolCnt then min 100 (st.nPolSum / (st.nPolCnt : ℚ)) else 0
    niprPolRawAvg := if 0 < st.nPolRawCnt then min 100 (st.nPolRawSum / (st.nPolRawCnt : ℚ)) else 0
    siprProdCompAvg := if 0 < st.sProdCnt then min 100 (st.sProdSum / (st.sProdCnt : ℚ)) else 0
    siprPolEnfAvg := if 0 < st.sPolCnt then min 100 (st.sPolSum / (st.sPolCnt : ℚ)) else 0
    siprPolRawAvg := if 0 < st.sPolRawCnt then min 100 (st.sPolRawSum / (st.sPolRawCnt : ℚ)) else 0 }

/-- Result of `aggregateByISIC`: the per-ISIC records split by TYCOM. -/
structure AggResult where
  csl : List ISICAgg
  csp : List ISICAgg
deriving DecidableEq, Repr

/-- `aggregateByISIC(boats, settings)`. -/
def aggregateByISIC (boats : List Boat) (settings : Settings) : AggResult :=
  let aggs := (groupByIsic boats settings).map (fun g => mkAgg g.1 g.2)
  { csl := aggs.filter (fun a => a.tycom == "CSL")
    csp := aggs.filter (fun a => a.tycom == "CSP") }

/-! ## Dynamically-typed JS values

Needed to settle the malformed-input claim and `groupBoatsBy`'s falsy-key
behaviour.  A `JSVal` is one of the runtime values an entity field can hold;
`JSNum` separates finite doubles (as `ℚ`) from `NaN` and the infinities so
JS comparison semantics can be stated exactly. -/

inductive JSNum
  | fin (q : ℚ)
  | nan
  | inf
  | ninf
deriving DecidableEq, Repr

inductive JSVal
  | null
  | undef
  | num (n : JSNum)
  | str (s : String)
  | bool (b : Bool)
deriving DecidableEq, Repr

/-- JS truthiness: `null`, `undefined`, `false`, `0`, `NaN` and `''` are falsy. -/
def jsTruthy : JSVal → Bool
  | .null => false
  | .undef => false
  | .bool b => b
  | .str s => !(s == "")
  | .num (.fin q) => decide (q ≠ 0)
  | .num .nan => false
  | .num .inf => true
  | .num .ninf => true

/-- `a || d`: `a` when truthy, else `d`. -/
def jsOr (a d : JSVal) : JSVal := if jsTruthy a then a else d

def natOfDigits (cs : List Char) : ℕ :=
  cs.foldl (fun n c => n * 10 + (c.toNat - 48)) 0

/-- Unsigned decimal literal: digits, optionally `digits.digits` (one side may
be empty but not both). -/
def parseUnsigned (cs : List Char) : Option ℚ :=
  let intPart := cs.takeWhile Char.isDigit
  let rest := cs.drop intPart.length
  match rest with
  | [] => if intPart.isEmpty then none else some (natOfDigits intPart : ℚ)
  | '.' :: frac =>
      if frac.all Char.isDigit && !(intPart.isEmpty && frac.isEmpty) then
        some ((natOfDigits intPart : ℚ) + (natOfDigits frac : ℚ) / ((10 : ℚ) ^ frac.length))
      else none
  | _ => none

/-- Strip leading and trailing whitespace (JS `ToNumber` trims the string). -/
def jsTrimList (cs : List Char) : List Char :=
  ((cs.dropWhile Char.isWhitespace).reverse.dropWhile Char.isWhitespace).reverse

/-- JS `ToNumber` on a string: whitespace-trimmed; `''` → `0`; a signed
decimal literal → its value; anything else → `NaN`.  (Hex/exponent/`Infinity`
string forms are left to `NaN`; no claim exercises them.) -/
def strToNum (s : String) : JSNum :=
  match jsTrimList s.toList with
  | [] => .fin 0
  | '-' :: rest => match parseUnsigned rest with | some q => .fin (-q) | none => .nan
  | '+' :: rest => match parseUnsigned rest with | some q => .fin q | none => .nan
  | cs => match parseUnsigned cs with | some q => .fin q | none => .nan

/-- JS `ToNumber`. -/
def toNumber : JSVal → JSNum
  | .null => .fin 0
  | .undef => .nan
  | .bool b => .fin (if b then 1 else 0)
  | .num n => n
  | .str s => strToNum s

/-- `n < t` for a JS number against a finite threshold. -/
def JSNum.ltQ : JSNum → ℚ → Bool
  | .fin q, t => decide (q < t)
  | .nan, _ => false
  | .inf, _ => false
  | .ninf, _ => true

/-- `n > t` for a JS number against a finite threshold. -/
def JSNum.gtQ : JSNum → ℚ → Bool
  | .fin q, t => decide (t < q)
  | .nan, _ => false
  | .inf, _ => true
  | .ninf, _ => false

/-- JS `v < t` where `t` is a finite number: both sides go through `ToNumber`
(for a string left operand the comparison is still numeric since the right
operand is a number). -/
def jsLt (v : JSVal) (t : ℚ) : Bool := (toNumber v).ltQ t

def jsGt (v : JSVal) (t : ℚ) : Bool := (toNumber v).gtQ t

/-! ### `groupBoatsBy` — src/src/aggregation.js

`const key = b[field] || 'Unknown'; if (!groups[key]) groups[key] = [];
groups[key].push(b);`  Object keys are strings, so a truthy key is coerced
with JS `ToString`; `jsToKeyString` abbreviates the digit rendering of
numbers (the claims only distinguish which values collapse to `'Unknown'`). -/

def jsToKeyString : JSVal → String
  | .str s => s
  | .num (.fin q) => if q.den = 1 then toString q.num else toString q
  | .num .nan => "NaN"
  | .num .inf => "Infinity"
  | .num .ninf => "-Infinity"
  | .bool b => if b then "true" else "false"
  | .null => "null"
  | .undef => "undefined"

/-- The bucket key of one entity: `b[field] || 'Unknown'`, as an object key. -/
def jsGroupKey (v : JSVal) : String :=
  if jsTruthy v then jsToKeyString v else "Unknown"

/-- `groupBoatsBy(boats, field)`, the groups in first-seen key order. -/
def groupBoatsBy {α : Type} (boats : List α) (field : α → JSVal) :
    List (String × List α) :=
  boats.foldl (fun gs b =>
    let key := jsGroupKey (field b)
    if gs.any (fun g => g.1 == key) then
      gs.map (fun g => if g.1 == key then (g.1, g.2 ++ [b]) else g)
    else gs ++ [(key, [b])]) []

/-! ### `calculateRisk` over raw JS values

The same function, over a boat whose fields hold arbitrary runtime values,
with exceptions made explicit: `Except.error` is a thrown `TypeError`.
`v.toFixed(…)` succeeds exactly on numbers; on any other value property
lookup yields `undefined` (or throws on `null`) and the call throws. -/

/-- A raw boat record: every field may hold any runtime value.  (Omitted
fields of the JS object are `undefined`.) -/
structure BoatJS where
  isNmci : JSVal := .undef
  essNiprBreakfix : JSVal := .undef
  essSiprBreakfix : JSVal := .undef
  essNiprProductCompliance : JSVal := .undef
  essSiprProductCompliance : JSVal := .undef
  essNiprTruePolicy : JSVal := .undef
  essSiprTruePolicy : JSVal := .undef
  essNiprPolicyEnforced : JSVal := .undef
  essSiprPolicyEnforced : JSVal := .undef
  vramNiprRaVph : JSVal := .undef
  vramSiprRaVph : JSVal := .undef
  vramNiprScanDate : JSVal := .undef
  vramSiprScanDate : JSVal := .undef
  vramNiprAssets : JSVal := .undef
  vramSiprAssets : JSVal := .undef
  vramNiprScanExempt : JSVal := .undef
  vramSiprScanExempt : JSVal := .undef
  tamPastDue : JSVal := .undef
deriving DecidableEq, Repr

/-- `new Date(v)`'s time value in ms, `none` for an Invalid Date.  Date
strings are left invalid in this model (no claim feeds a date string through
the raw-value path). -/
def toDateMs : JSVal → Option ℚ
  | .num (.fin q) => some q
  | .num _ => none
  | .bool b => some (if b then 1 else 0)
  | .null => some 0
  | .str _ => none
  | .undef => none

/-- `scanAge` on a raw value: falsy → `null`; Invalid Date → `null`; else
`Math.floor((now - date)/86400000)`, `null` when negative. -/
def jsScanAge (now : ℤ) (d : JSVal) : Option ℚ :=
  if !jsTruthy d then none
  else
    match toDateMs d with
    | none => none
    | some q =>
        let age : ℤ := ⌊((now : ℚ) - q) / 86400000⌋
        if 0 ≤ age then some (age : ℚ) else none

/-- Reasons of the raw-value model, payloads kept as runtime values. -/
inductive ReasonJS
  | breakfix (net : Network) (v : JSVal)
  | noVramData
  | prodComp (net : Network) (v : JSVal)
  | vph (net : Network) (v : JSVal)
  | scan (net : Network) (days : ℚ)
  | truePolicy (net : Network) (v : JSVal)
  | rawPolicy (net : Network) (v : JSVal)
  | tams (v : JSVal)
  | lowTruePolicy (net : Network) (v : JSVal)
  | lowRawPolicy (net : Network) (v : JSVal)
  | scanExempt
deriving DecidableEq, Repr

def mentionsVramDataJS : ReasonJS → Bool
  | .noVramData => true
  | _ => false

/-- `if (cond) reasons.push(template-with-v.toFixed(…))`: when the condition
holds, the push evaluates `v.toFixed`, which throws unless `v` is a number. -/
def pushFixed (c : Bool) (v : JSVal) (mk : JSVal → ReasonJS) :
    Except String (List ReasonJS) :=
  if c then
    match v with
    | .num n => .ok [mk (.num n)]
    | _ => .error "TypeError: toFixed is not a function"
  else .ok []

/-- A push whose template interpolates the value without calling a method
(`${v}` never throws for these values). -/
def pushPlain (c : Bool) (r : ReasonJS) : Except String (List ReasonJS) :=
  if c then .ok [r] else .ok []

/-- `n >= t` for a JS number against a finite threshold. -/
def JSNum.geQ : JSNum → ℚ → Bool
  | .fin q, t => decide (t ≤ q)
  | .nan, _ => false
  | .inf, _ => true
  | .ninf, _ => false

def jsGe (v : JSVal) (t : ℚ) : Bool := (toNumber v).geQ t

/--
`calculateRisk(boat, thresholds)` over raw runtime values, exceptions made
explicit.  Statement-by-statement translation of src/src/utils.js 132-396;
each `reasons.push` whose template calls `.toFixed` can throw, in source
order, which the `Except` sequencing reproduces.
-/
def calculateRiskJS (now : ℤ) (b : BoatJS) (t : Config) :
    Except String (RiskLevel × List ReasonJS) := do
  let isNmci := b.isNmci == .bool true
  let nAge := if isNmci then none else jsScanAge now b.vramNiprScanDate
  let sAge := jsScanAge now b.vramSiprScanDate
  let hasNiprVram := if isNmci then true else
    (!(b.vramNiprScanDate == .null) || !(b.vramNiprRaVph == .null) ||
     !(b.vramNiprAssets == .null))
  let hasSiprVram := !(b.vramSiprScanDate == .null) || !(b.vramSiprRaVph == .null) ||
    !(b.vramSiprAssets == .null)
  let hasAnyVram := hasNiprVram || hasSiprVram
  -- 1. breakfix
  let bfN ← pushPlain (!isNmci && jsGt (jsOr b.essNiprBreakfix (.num (.fin 0))) 0)
    (.breakfix .nipr b.essNiprBreakfix)
  let bfS ← pushPlain (jsGt (jsOr b.essSiprBreakfix (.num (.fin 0))) 0)
    (.breakfix .sipr b.essSiprBreakfix)
  -- 2. no VRAM data
  let noScans := !hasAnyVram || (isNmci && !hasSiprVram)
  let noV ← pushPlain noScans .noVramData
  -- 3. product compliance
  let thrProd := orDefault t.high_product_compliance 50
  let pN ← pushFixed (decide (0 < thrProd) && !isNmci &&
      !(b.essNiprProductCompliance == .null) && jsLt b.essNiprProductCompliance thrProd)
    b.essNiprProductCompliance (.prodComp .nipr)
  let pS ← pushFixed (decide (0 < thrProd) &&
      !(b.essSiprProductCompliance == .null) && jsLt b.essSiprProductCompliance thrProd)
    b.essSiprProductCompliance (.prodComp .sipr)
  -- 4. VPH
  let thrVph := orDefault t.auto_high_ra_vph 5
  let vN ← pushFixed (!isNmci && !(b.vramNiprRaVph == .null) && jsGt b.vramNiprRaVph thrVph)
    b.vramNiprRaVph (.vph .nipr)
  let vS ← pushFixed (!(b.vramSiprRaVph == .null) && jsGt b.vramSiprRaVph thrVph)
    b.vramSiprRaVph (.vph .sipr)
  -- 5. scan age
  let thrScan := orDefault t.auto_high_scan_age_days 30
  let scN ← pushPlain (!isNmci && jsGtB nAge thrScan) (.scan .nipr (nAge.getD 0))
  let scS ← pushPlain (jsGtB sAge thrScan) (.scan .sipr (sAge.getD 0))
  -- 6. true policy
  let thrTP := orDefault t.high_ess_compliance 0
  let tpN ← pushFixed (decide (0 < thrTP) && !isNmci &&
      !(b.essNiprTruePolicy == .null) && jsLt b.essNiprTruePolicy thrTP)
    b.essNiprTruePolicy (.truePolicy .nipr)
  let tpS ← pushFixed (decide (0 < thrTP) &&
      !(b.essSiprTruePolicy == .null) && jsLt b.essSiprTruePolicy thrTP)
    b.essSiprTruePolicy (.truePolicy .sipr)
  -- 6b. raw policy
  let thrRP := orDefault t.high_raw_policy_compliance 0
  let rpN ← pushFixed (decide (0 < thrRP) && !isNmci &&
      !(b.essNiprPolicyEnforced == .null) && jsLt b.essNiprPolicyEnforced thrRP)
    b.essNiprPolicyEnforced (.rawPolicy .nipr)
  let rpS ← pushFixed (decide (0 < thrRP) &&
      !(b.essSiprPolicyEnforced == .null) && jsLt b.essSiprPolicyEnforced thrRP)
    b.essSiprPolicyEnforced (.rawPolicy .sipr)
  -- 7. TAMs
  let thrTam := orDefault t.high_tam_past_due 20
  let tam ← pushPlain (jsGt (jsOr b.tamPastDue (.num (.fin 0))) thrTam)
    (.tams b.tamPastDue)
  let hr := bfN ++ bfS ++ noV ++ pN ++ pS ++ vN ++ vS ++ scN ++ scS ++
    tpN ++ tpS ++ rpN ++ rpS ++ tam
  if hr.isEmpty then
    -- MED conditions
    let thrMV := orDefault t.med_ra_vph (mkRat 7 2)
    let mvN ← pushFixed (!isNmci && !(b.vramNiprRaVph == .null) && jsGt b.vramNiprRaVph thrMV)
      b.vramNiprRaVph (.vph .nipr)
    let mvS ← pushFixed (!(b.vramSiprRaVph == .null) && jsGt b.vramSiprRaVph thrMV)
      b.vramSiprRaVph (.vph .sipr)
    let thrMC := orDefault t.med_ess_compliance 95
    let mpN ← pushFixed (!isNmci && !(b.essNiprProductCompliance == .null) &&
        jsLt b.essNiprProductCompliance thrMC) b.essNiprProductCompliance (.prodComp .nipr)
    let mpS ← pushFixed (!(b.essSiprProductCompliance == .null) &&
        jsLt b.essSiprProductCompliance thrMC) b.essSiprProductCompliance (.prodComp .sipr)
    let thrMTP := orDefault t.med_true_policy_compliance 0
    let mtpN ← pushFixed (decide (0 < thrMTP) && !isNmci &&
        !(b.essNiprTruePolicy == .null) && jsLt b.essNiprTruePolicy thrMTP)
      b.essNiprTruePolicy (.truePolicy .nipr)
    let mtpS ← pushFixed (decide (0 < thrMTP) &&
        !(b.essSiprTruePolicy == .null) && jsLt b.essSiprTruePolicy thrMTP)
      b.essSiprTruePolicy (.truePolicy .sipr)
    let thrMRP := orDefault t.med_raw_policy_compliance 0
    let mrpN ← pushFixed (decide (0 < thrMRP) && !isNmci &&
        !(b.essNiprPolicyEnforced == .null) && jsLt b.essNiprPolicyEnforced thrMRP)
      b.essNiprPolicyEnforced (.rawPolicy .nipr)
    let mrpS ← pushFixed (decide (0 < thrMRP) &&
        !(b.essSiprPolicyEnforced == .null) && jsLt b.essSiprPolicyEnforced thrMRP)
      b.essSiprPolicyEnforced (.rawPolicy .sipr)
    let thrMS := orDefault t.med_scan_age_days 14
    let msN ← pushPlain (!isNmci && jsGtB nAge thrMS) (.scan .nipr (nAge.getD 0))
    let msS ← pushPlain (jsGtB sAge thrMS) (.scan .sipr (sAge.getD 0))
    let thrMT := orDefault t.med_tam_past_due 10
    let mtam ← pushPlain (jsGt (jsOr b.tamPastDue (.num (.fin 0))) thrMT)
      (.tams b.tamPastDue)
    let mr := mvN ++ mvS ++ mpN ++ mpS ++ mtpN ++ mtpS ++ mrpN ++ mrpS ++
      msN ++ msS ++ mtam
    if 2 ≤ mr.length then pure (.MED, mr)
    else
      -- strict LOW validation
      let lowVph := orDefault t.low_vph (mkRat 5 2)
      let lowProd := orDefault t.low_product_compliance 95
      let lowTP := orDefault t.low_true_policy_compliance 95
      let lowRP := orDefault t.low_raw_policy_compliance 95
      let lowScan := orDefault t.low_scan_age_days 14
      let lowTam := orDefault t.low_tam_past_due 5
      let tpOn := decide (nullishDefault t.low_true_policy_compliance_enabled 0 = 1)
      let rpOn := decide (nullishDefault t.low_raw_policy_compliance_enabled 0 = 1)
      let tamOn := decide (nullishDefault t.low_tam_past_due_enabled 0 = 1)
      let fVphN := !isNmci && !(b.vramNiprRaVph == .null) && jsGe b.vramNiprRaVph lowVph
      let fVphS := !(b.vramSiprRaVph == .null) && jsGe b.vramSiprRaVph lowVph
      let fProdN := !isNmci && !(b.essNiprProductCompliance == .null) &&
        jsLt b.essNiprProductCompliance lowProd
      let fProdS := !(b.essSiprProductCompliance == .null) &&
        jsLt b.essSiprProductCompliance lowProd
      let fTpN := tpOn && !isNmci && !(b.essNiprTruePolicy == .null) &&
        jsLt b.essNiprTruePolicy lowTP
      let fTpS := tpOn && !(b.essSiprTruePolicy == .null) && jsLt b.essSiprTruePolicy lowTP
      let fRpN := rpOn && !isNmci && !(b.essNiprPolicyEnforced == .null) &&
        jsLt b.essNiprPolicyEnforced lowRP
      let fRpS := rpOn && !(b.essSiprPolicyEnforced == .null) &&
        jsLt b.essSiprPolicyEnforced lowRP
      let fScanN := !isNmci && jsGtB nAge lowScan
      let fScanS := jsGtB sAge lowScan
      let fTam := tamOn && jsGt (jsOr b.tamPastDue (.num (.fin 0))) lowTam
      let meets := !(fVphN || fVphS || fProdN || fProdS || fTpN || fTpS ||
        fRpN || fRpS || fScanN || fScanS || fTam)
      if !meets then
        let lvN ← pushFixed fVphN b.vramNiprRaVph (.vph .nipr)
        let lvS ← pushFixed fVphS b.vramSiprRaVph (.vph .sipr)
        let lpN ← pushFixed fProdN b.essNiprProductCompliance (.prodComp .nipr)
        let lpS ← pushFixed fProdS b.essSiprProductCompliance (.prodComp .sipr)
        let ltpN ← pushFixed fTpN b.essNiprTruePolicy (.lowTruePolicy .nipr)
        let ltpS ← pushFixed fTpS b.essSiprTruePolicy (.lowTruePolicy .sipr)
        let lrpN ← pushFixed fRpN b.essNiprPolicyEnforced (.lowRawPolicy .nipr)
        let lrpS ← pushFixed fRpS b.essSiprPolicyEnforced (.lowRawPolicy .sipr)
        let lsN ← pushPlain fScanN (.scan .nipr (nAge.getD 0))
        let lsS ← pushPlain fScanS (.scan .sipr (sAge.getD 0))
        let ltam ← pushPlain fTam (.tams b.tamPastDue)
        pure (.MED, lvN ++ lvS ++ lpN ++ lpS ++ ltpN ++ ltpS ++ lrpN ++ lrpS ++
          lsN ++ lsS ++ ltam)
      else pure (.LOW, [])
  else
    -- scan-exempt downgrade (`boat.isNmci` by truthiness here, not `=== true`)
    let ex := if jsTruthy b.isNmci then
        jsTruthy b.vramNiprScanExempt && jsTruthy b.vramSiprScanExempt
      else jsTruthy b.vramNiprScanExempt || jsTruthy b.vramSiprScanExempt
    if ex && noScans && hr.all mentionsVramDataJS then pure (.MED, hr ++ [.scanExempt])
    else pure (.HIGH, hr)

/-! ## Helper lemmas for threshold relaxation -/

theorem subAppend {α : Type} {a b c d : List α} (h1 : a ⊆ c) (h2 : b ⊆ d) :
    a ++ b ⊆ c ++ d := by
  intro x hx
  rcases List.mem_append.1 hx with h | h
  · exact List.mem_append.2 (Or.inl (h1 h))
  · exact List.mem_append.2 (Or.inr (h2 h))

theorem checkIf_sub {c c' : Bool} {r : Reason} (h : c' = true → c = true) :
    checkIf c' r ⊆ checkIf c r := by
  by_cases hc' : c' = true
  · rw [checkIf, if_pos hc', checkIf, if_pos (h hc')]
    exact List.Subset.refl _
  · rw [checkIf, if_neg hc']
    exact List.nil_subset _

theorem checkIf_len {c c' : Bool} {r : Reason} (h : c' = true → c = true) :
    (checkIf c' r).length ≤ (checkIf c r).length := by
  by_cases hc' : c' = true
  · rw [checkIf, if_pos hc', checkIf, if_pos (h hc')]
  · rw [checkIf, if_neg hc']
    simp

theorem contra_bool {a b : Bool} (h : a = true → b = true) (hb : b = false) :
    a = false := by
  cases ha : a
  · rfl
  · rw [h ha] at hb; cases hb

theorem andImp {a b b' : Bool} (h : b' = true → b = true) :
    (a && b') = true → (a && b) = true := by
  simp only [Bool.and_eq_true]
  exact fun hx => ⟨hx.1, h hx.2⟩

theorem orDefault_pos {v : ℚ} (h : 0 < v) (d : ℚ) : orDefault (some v) d = v := by
  simp [orDefault, ne_of_gt h]

theorem jsLtB_imp {x : Option ℚ} {a a' : ℚ} (h : a' ≤ a) :
    jsLtB x a' = true → jsLtB x a = true := by
  cases x with
  | none => simp [jsLtB]
  | some q =>
      simp only [jsLtB, decide_eq_true_eq]
      exact fun hx => lt_of_lt_of_le hx h

theorem jsGtB_imp {x : Option ℚ} {a a' : ℚ} (h : a ≤ a') :
    jsGtB x a' = true → jsGtB x a = true := by
  cases x with
  | none => simp [jsGtB]
  | some q =>
      simp only [jsGtB, decide_eq_true_eq]
      exact fun hx => lt_of_le_of_lt h hx

theorem jsGeB_imp {x : Option ℚ} {a a' : ℚ} (h : a ≤ a') :
    jsGeB x a' = true → jsGeB x a = true := by
  cases x with
  | none => simp [jsGeB]
  | some q =>
      simp only [jsGeB, decide_eq_true_eq]
      exact fun hx => le_trans h hx

theorem decideLt_imp {x : ℚ} {a a' : ℚ} (h : a ≤ a') :
    decide (a' < x) = true → decide (a < x) = true := by
  simp only [decide_eq_true_eq]
  exact fun hx => lt_of_le_of_lt h hx

theorem highReasons_subset (now : ℤ) (b : Boat) {t t' : Config}
    (h4 : prodHighNipr b t' ⊆ prodHighNipr b t)
    (h5 : prodHighSipr b t' ⊆ prodHighSipr b t)
    (h6 : vphHighNipr b t' ⊆ vphHighNipr b t)
    (h7 : vphHighSipr b t' ⊆ vphHighSipr b t)
    (h8 : scanHighNipr now b t' ⊆ scanHighNipr now b t)
    (h9 : scanHighSipr now b t' ⊆ scanHighSipr now b t)
    (h10 : truePolHighNipr b t' ⊆ truePolHighNipr b t)
    (h11 : truePolHighSipr b t' ⊆ truePolHighSipr b t)
    (h12 : rawPolHighNipr b t' ⊆ rawPolHighNipr b t)
    (h13 : rawPolHighSipr b t' ⊆ rawPolHighSipr b t)
    (h14 : tamHigh b t' ⊆ tamHigh b t) :
    highReasons now b t' ⊆ highReasons now b t := by
  unfold highReasons
  exact subAppend (subAppend (subAppend (subAppend (subAppend (subAppend (subAppend
    (subAppend (subAppend (subAppend (subAppend (subAppend (subAppend
      (List.Subset.refl _) (List.Subset.refl _)) (List.Subset.refl _)) h4) h5) h6) h7)
        h8) h9) h10) h11) h12) h13) h14

theorem medReasons_len (now : ℤ) (b : Boat) {t t' : Config}
    (h1 : (vphMedNipr b t').length ≤ (vphMedNipr b t).length)
    (h2 : (vphMedSipr b t').length ≤ (vphMedSipr b t).length)
    (h3 : (prodMedNipr b t').length ≤ (prodMedNipr b t).length)
    (h4 : (prodMedSipr b t').length ≤ (prodMedSipr b t).length)
    (h5 : (truePolMedNipr b t').length ≤ (truePolMedNipr b t).length)
    (h6 : (truePolMedSipr b t').length ≤ (truePolMedSipr b t).length)
    (h7 : (rawPolMedNipr b t').length ≤ (rawPolMedNipr b t).length)
    (h8 : (rawPolMedSipr b t').length ≤ (rawPolMedSipr b t).length)
    (h9 : (scanMedNipr now b t').length ≤ (scanMedNipr now b t).length)
    (h10 : (scanMedSipr now b t').length ≤ (scanMedSipr now b t).length)
    (h11 : (tamMed b t').length ≤ (tamMed b t).length) :
    (medReasons now b t').length ≤ (medReasons now b t).length := by
  unfold medReasons
  simp only [List.length_append]
  omega

theorem meetsLow_imp (now : ℤ) (b : Boat) {t t' : Config}
    (h1 : lowVphFailNipr b t' = true → lowVphFailNipr b t = true)
    (h2 : lowVphFailSipr b t' = true → lowVphFailSipr b t = true)
    (h3 : lowProdFailNipr b t' = true → lowProdFailNipr b t = true)
    (h4 : lowProdFailSipr b t' = true → lowProdFailSipr b t = true)
    (h5 : lowTruePolFailNipr b t' = true → lowTruePolFailNipr b t = true)
    (h6 : lowTruePolFailSipr b t' = true → lowTruePolFailSipr b t = true)
    (h7 : lowRawPolFailNipr b t' = true → lowRawPolFailNipr b t = true)
    (h8 : lowRawPolFailSipr b t' = true → lowRawPolFailSipr b t = true)
    (h9 : lowScanFailNipr now b t' = true → lowScanFailNipr now b t = true)
    (h10 : lowScanFailSipr now b t' = true → lowScanFailSipr now b t = true)
    (h11 : lowTamFail b t' = true → lowTamFail b t = true) :
    meetsLowCriteria now b t = true → meetsLowCriteria now b t' = true := by
  unfold meetsLowCriteria
  simp only [Bool.not_eq_true', Bool.or_eq_false_iff]
  rintro ⟨⟨⟨⟨⟨⟨⟨⟨⟨⟨f1, f2⟩, f3⟩, f4⟩, f5⟩, f6⟩, f7⟩, f8⟩, f9⟩, f10⟩, f11⟩
  exact ⟨⟨⟨⟨⟨⟨⟨⟨⟨⟨contra_bool h1 f1, contra_bool h2 f2⟩, contra_bool h3 f3⟩,
    contra_bool h4 f4⟩, contra_bool h5 f5⟩, contra_bool h6 f6⟩, contra_bool h7 f7⟩,
    contra_bool h8 f8⟩, contra_bool h9 f9⟩, contra_bool h10 f10⟩, contra_bool h11 f11⟩

theorem medlow_rank_le_one (now : ℤ) (b : Boat) (t : Config) :
    ((if 2 ≤ (medReasons now b t).length then (⟨.MED, medReasons now b t⟩ : RiskResult)
      else if !meetsLowCriteria now b t then ⟨.MED, lowReasons now b t⟩
      else ⟨.LOW, []⟩).level).rank ≤ 1 := by
  split
  · exact le_refl _
  · split <;> simp [RiskLevel.rank]

theorem high_rank_ge_one (now : ℤ) (b : Boat) (t : Config) :
    1 ≤ ((if isScanExempt b && noVramTrig b && (highReasons now b t).all mentionsVramData
      then (⟨.MED, highReasons now b t ++ [.scanExempt]⟩ : RiskResult)
      else ⟨.HIGH, highReasons now b t⟩).level).rank := by
  split <;> simp [RiskLevel.rank]

/-- Core relaxation argument: if a config change can only lose HIGH reasons,
not increase the MED tally, and preserve a passing LOW validation, the
resulting tier cannot go up. -/
theorem rank_le_of_relax (now : ℤ) (b : Boat) (t t' : Config)
    (hH : highReasons now b t' ⊆ highReasons now b t)
    (hM : (medReasons now b t').length ≤ (medReasons now b t).length)
    (hL : meetsLowCriteria now b t = true → meetsLowCriteria now b t' = true) :
    ((calculateRisk now b (some t')).level).rank ≤ ((calculateRisk now b (some t)).level).rank := by
  simp only [calculateRisk, Option.getD_some]
  by_cases h1' : highReasons now b t' = []
  · rw [if_pos h1']
    by_cases h1 : highReasons now b t = []
    · rw [if_pos h1]
      by_cases h2 : 2 ≤ (medReasons now b t).length
      · rw [if_pos h2]
        exact medlow_rank_le_one now b t'
      · rw [if_neg h2]
        have h2' : ¬ 2 ≤ (medReasons now b t').length := fun hc => h2 (hc.trans hM)
        rw [if_neg h2']
        by_cases h3 : meetsLowCriteria now b t = true
        · have h3' : meetsLowCriteria now b t' = true := hL h3
          have e1 : ¬((!meetsLowCriteria now b t') = true) := by simp [h3']
          have e2 : ¬((!meetsLowCriteria now b t) = true) := by simp [h3]
          rw [if_neg e1, if_neg e2]
        · have e2 : (!meetsLowCriteria now b t) = true := by
            simp only [Bool.not_eq_true] at h3
            simp [h3]
          rw [if_pos e2]
          split <;> simp [RiskLevel.rank]
    · rw [if_neg h1]
      exact (medlow_rank_le_one now b t').trans (high_rank_ge_one now b t)
  · rw [if_neg h1']
    have h1 : highReasons now b t ≠ [] := by
      obtain ⟨x, hx⟩ := List.exists_mem_of_ne_nil _ h1'
      exact List.ne_nil_of_mem (hH hx)
    rw [if_neg h1]
    by_cases hex' : (isScanExempt b && noVramTrig b &&
        (highReasons now b t').all mentionsVramData) = true
    · rw [if_pos hex']
      exact le_trans (by simp [RiskLevel.rank]) (high_rank_ge_one now b t)
    · rw [if_neg hex']
      have hex : ¬(isScanExempt b && noVramTrig b &&
          (highReasons now b t).all mentionsVramData) = true := by
        intro hc
        apply hex'
        simp only [Bool.and_eq_true, List.all_eq_true] at hc ⊢
        exact ⟨hc.1, fun r hr => hc.2 r (hH hr)⟩
      rw [if_neg hex]

/-! ## The threshold knobs, as an enumeration -/

/-- Every key of the threshold configuration. -/
inductive Knob
  | low_vph
  | low_scan_age_days
  | low_product_compliance
  | low_true_policy_compliance
  | low_raw_policy_compliance
  | low_tam_past_due
  | med_ra_vph
  | med_ess_compliance
  | med_scan_age_days
  | med_tam_past_due
  | med_true_policy_compliance
  | med_raw_policy_compliance
  | auto_high_ra_vph
  | auto_high_scan_age_days
  | high_ess_compliance
  | high_raw_policy_compliance
  | high_product_compliance
  | high_tam_past_due
  | color_product_green
  | color_product_red
  | color_policy_green
  | color_policy_red
  | color_policy_raw_green
  | color_policy_raw_red
  | color_vph_green
  | color_vph_red
  | color_scan_green
  | color_scan_red
  | hq_color_product_green
  | hq_color_product_red
  | hq_color_policy_green
  | hq_color_policy_red
  | hq_color_policy_raw_green
  | hq_color_policy_raw_red
  | low_product_compliance_enabled
  | low_true_policy_compliance_enabled
  | low_raw_policy_compliance_enabled
  | low_tam_past_due_enabled
deriving DecidableEq, Repr

/-- Read one knob from a config. -/
def knobVal (t : Config) : Knob → Option ℚ
  | .low_vph => t.low_vph
  | .low_scan_age_days => t.low_scan_age_days
  | .low_product_compliance => t.low_product_compliance
  | .low_true_policy_compliance => t.low_true_policy_compliance
  | .low_raw_policy_compliance => t.low_raw_policy_compliance
  | .low_tam_past_due => t.low_tam_past_due
  | .med_ra_vph => t.med_ra_vph
  | .med_ess_compliance => t.med_ess_compliance
  | .med_scan_age_days => t.med_scan_age_days
  | .med_tam_past_due => t.med_tam_past_due
  | .med_true_policy_compliance => t.med_true_policy_compliance
  | .med_raw_policy_compliance => t.med_raw_policy_compliance
  | .auto_high_ra_vph => t.auto_high_ra_vph
  | .auto_high_scan_age_days => t.auto_high_scan_age_days
  | .high_ess_compliance => t.high_ess_compliance
  | .high_raw_policy_compliance => t.high_raw_policy_compliance
  | .high_product_compliance => t.high_product_compliance
  | .high_tam_past_due => t.high_tam_past_due
  | .color_product_green => t.color_product_green
  | .color_product_red => t.color_product_red
  | .color_policy_green => t.color_policy_green
  | .color_policy_red => t.color_policy_red
  | .color_policy_raw_green => t.color_policy_raw_green
  | .color_policy_raw_red => t.color_policy_raw_red
  | .color_vph_green => t.color_vph_green
  | .color_vph_red => t.color_vph_red
  | .color_scan_green => t.color_scan_green
  | .color_scan_red => t.color_scan_red
  | .hq_color_product_green => t.hq_color_product_green
  | .hq_color_product_red => t.hq_color_product_red
  | .hq_color_policy_green => t.hq_color_policy_green
  | .hq_color_policy_red => t.hq_color_policy_red
  | .hq_color_policy_raw_green => t.hq_color_policy_raw_green
  | .hq_color_policy_raw_red => t.hq_color_policy_raw_red
  | .low_product_compliance_enabled => t.low_product_compliance_enabled
  | .low_true_policy_compliance_enabled => t.low_true_policy_compliance_enabled
  | .low_raw_policy_compliance_enabled => t.low_raw_policy_compliance_enabled
  | .low_tam_past_due_enabled => t.low_tam_past_due_enabled

/-- Replace one knob of a config. -/
def setKnob (t : Config) (k : Knob) (v : Option ℚ) : Config :=
  match k with
  | .low_vph => { t with low_vph := v }
  | .low_scan_age_days => { t with low_scan_age_days := v }
  | .low_product_compliance => { t with low_product_compliance := v }
  | .low_true_policy_compliance => { t with low_true_policy_compliance := v }
  | .low_raw_policy_compliance => { t with low_raw_policy_compliance := v }
  | .low_tam_past_due => { t with low_tam_past_due := v }
  | .med_ra_vph => { t with med_ra_vph := v }
  | .med_ess_compliance => { t with med_ess_compliance := v }
  | .med_scan_age_days => { t with med_scan_age_days := v }
  | .med_tam_past_due => { t with med_tam_past_due := v }
  | .med_true_policy_compliance => { t with med_true_policy_compliance := v }
  | .med_raw_policy_compliance => { t with med_raw_policy_compliance := v }
  | .auto_high_ra_vph => { t with auto_high_ra_vph := v }
  | .auto_high_scan_age_days => { t with auto_high_scan_age_days := v }
  | .high_ess_compliance => { t with high_ess_compliance := v }
  | .high_raw_policy_compliance => { t with high_raw_policy_compliance := v }
  | .high_product_compliance => { t with high_product_compliance := v }
  | .high_tam_past_due => { t with high_tam_past_due := v }
  | .color_product_green => { t with color_product_green := v }
  | .color_product_red => { t with color_product_red := v }
  | .color_policy_green => { t with color_policy_green := v }
  | .color_policy_red => { t with color_policy_red := v }
  | .color_policy_raw_green => { t with color_policy_raw_green := v }
  | .color_policy_raw_red => { t with color_policy_raw_red := v }
  | .color_vph_green => { t with color_vph_green := v }
  | .color_vph_red => { t with color_vph_red := v }
  | .color_scan_green => { t with color_scan_green := v }
  | .color_scan_red => { t with color_scan_red := v }
  | .hq_color_product_green => { t with hq_color_product_green := v }
  | .hq_color_product_red => { t with hq_color_product_red := v }
  | .hq_color_policy_green => { t with hq_color_policy_green := v }
  | .hq_color_policy_red => { t with hq_color_policy_red := v }
  | .hq_color_policy_raw_green => { t with hq_color_policy_raw_green := v }
  | .hq_color_policy_raw_red => { t with hq_color_policy_raw_red := v }
  | .low_product_compliance_enabled => { t with low_product_compliance_enabled := v }
  | .low_true_policy_compliance_enabled => { t with low_true_policy_compliance_enabled := v }
  | .low_raw_policy_compliance_enabled => { t with low_raw_policy_compliance_enabled := v }
  | .low_tam_past_due_enabled => { t with low_tam_past_due_enabled := v }

/--
"Changing knob `k` from `v` to `v'` in its permissive direction", per knob:

* upper-bound thresholds (VPH, scan age, TAM counts): raising, `0 < v ∧ v ≤ v'`
  (the disabled sentinel `999` of the `auto_high_*` family is just a large
  raise; a value of `0` is excluded because the `||`-fallback reads it as
  "missing" and substitutes the hardcoded literal);
* lower-bound thresholds with a non-zero literal fallback
  (`low_*`/`med_ess` compliance, `high_product_compliance`): lowering,
  `0 < v' ∧ v' ≤ v` (same `0` exclusion);
* lower-bound thresholds whose fallback is `0` and which a `> 0` guard
  disables (`med_true/raw_policy`, `high_ess`, `high_raw_policy`): lowering to
  a positive value, or the genuine disabled sentinel `0`;
* the LOW-stage enable toggles: any change that does not newly enable
  (`1` is "enabled", anything else disables);
* the color thresholds and the never-read `low_product_compliance_enabled`:
  any change (they do not influence `calculateRisk`).
-/
def permissiveStep : Knob → ℚ → ℚ → Prop
  | .low_vph, v, v' => 0 < v ∧ v ≤ v'
  | .low_scan_age_days, v, v' => 0 < v ∧ v ≤ v'
  | .low_product_compliance, v, v' => 0 < v' ∧ v' ≤ v
  | .low_true_policy_compliance, v, v' => 0 < v' ∧ v' ≤ v
  | .low_raw_policy_compliance, v, v' => 0 < v' ∧ v' ≤ v
  | .low_tam_past_due, v, v' => 0 < v ∧ v ≤ v'
  | .med_ra_vph, v, v' => 0 < v ∧ v ≤ v'
  | .med_ess_compliance, v, v' => 0 < v' ∧ v' ≤ v
  | .med_scan_age_days, v, v' => 0 < v ∧ v ≤ v'
  | .med_tam_past_due, v, v' => 0 < v ∧ v ≤ v'
  | .med_true_policy_compliance, v, v' => v' = 0 ∨ (0 < v' ∧ v' ≤ v)
  | .med_raw_policy_compliance, v, v' => v' = 0 ∨ (0 < v' ∧ v' ≤ v)
  | .auto_high_ra_vph, v, v' => 0 < v ∧ v ≤ v'
  | .auto_high_scan_age_days, v, v' => 0 < v ∧ v ≤ v'
  | .high_ess_compliance, v, v' => v' = 0 ∨ (0 < v' ∧ v' ≤ v)
  | .high_raw_policy_compliance, v, v' => v' = 0 ∨ (0 < v' ∧ v' ≤ v)
  | .high_product_compliance, v, v' => 0 < v' ∧ v' ≤ v
  | .high_tam_past_due, v, v' => 0 < v ∧ v ≤ v'
  | .low_true_policy_compliance_enabled, v, v' => v' = 1 → v = 1
  | .low_raw_policy_compliance_enabled, v, v' => v' = 1 → v = 1
  | .low_tam_past_due_enabled, v, v' => v' = 1 → v = 1
  | _, _, _ => True

theorem jsGtB_orD_imp {x o o' : Option ℚ} {f v v' : ℚ} (ho : o = some v)
    (ho' : o' = some v') (h0 : 0 < v) (h0' : 0 < v') (hle : v ≤ v') :
    jsGtB x (orDefault o' f) = true → jsGtB x (orDefault o f) = true := by
  subst ho; subst ho'
  rw [orDefault_pos h0, orDefault_pos h0']
  exact jsGtB_imp hle

theorem jsGeB_orD_imp {x o o' : Option ℚ} {f v v' : ℚ} (ho : o = some v)
    (ho' : o' = some v') (h0 : 0 < v) (h0' : 0 < v') (hle : v ≤ v') :
    jsGeB x (orDefault o' f) = true → jsGeB x (orDefault o f) = true := by
  subst ho; subst ho'
  rw [orDefault_pos h0, orDefault_pos h0']
  exact jsGeB_imp hle

theorem jsLtB_orD_imp {x o o' : Option ℚ} {f v v' : ℚ} (ho : o = some v)
    (ho' : o' = some v') (h0 : 0 < v) (h0' : 0 < v') (hle : v' ≤ v) :
    jsLtB x (orDefault o' f) = true → jsLtB x (orDefault o f) = true := by
  subst ho; subst ho'
  rw [orDefault_pos h0, orDefault_pos h0']
  exact jsLtB_imp hle

theorem decideLt_orD_imp {x : ℚ} {o o' : Option ℚ} {f v v' : ℚ} (ho : o = some v)
    (ho' : o' = some v') (h0 : 0 < v) (h0' : 0 < v') (hle : v ≤ v') :
    decide (orDefault o' f < x) = true → decide (orDefault o f < x) = true := by
  subst ho; subst ho'
  rw [orDefault_pos h0, orDefault_pos h0']
  exact decideLt_imp hle

theorem guard3_lt_imp {x : Option ℚ} {A : Bool} {o o' : Option ℚ} {f v v' : ℚ}
    (ho : o = some v) (ho' : o' = some v') (h0 : 0 < v) (h0' : 0 < v') (hle : v' ≤ v) :
    ((decide (0 < orDefault o' f) && A) && jsLtB x (orDefault o' f)) = true →
    ((decide (0 < orDefault o f) && A) && jsLtB x (orDefault o f)) = true := by
  subst ho; subst ho'
  rw [orDefault_pos h0, orDefault_pos h0']
  simp only [Bool.and_eq_true, decide_eq_true_eq]
  rintro ⟨⟨-, hA⟩, hx⟩
  exact ⟨⟨h0, hA⟩, jsLtB_imp hle hx⟩

theorem guard2_lt_imp {x : Option ℚ} {o o' : Option ℚ} {f v v' : ℚ}
    (ho : o = some v) (ho' : o' = some v') (h0 : 0 < v) (h0' : 0 < v') (hle : v' ≤ v) :
    (decide (0 < orDefault o' f) && jsLtB x (orDefault o' f)) = true →
    (decide (0 < orDefault o f) && jsLtB x (orDefault o f)) = true := by
  subst ho; subst ho'
  rw [orDefault_pos h0, orDefault_pos h0']
  simp only [Bool.and_eq_true, decide_eq_true_eq]
  rintro ⟨-, hx⟩
  exact ⟨h0, jsLtB_imp hle hx⟩

theorem guard_zero_imp {rest : Bool} {o' : Option ℚ} (ho' : o' = some 0) {c : Bool} :
    (decide (0 < orDefault o' 0) && rest) = true → c = true := by
  subst ho'
  intro hx
  simp [orDefault] at hx

theorem guard3_zero_imp {A rest : Bool} {o' : Option ℚ} (ho' : o' = some 0) {c : Bool} :
    ((decide (0 < orDefault o' 0) && A) && rest) = true → c = true := by
  subst ho'
  intro hx
  simp [orDefault] at hx

theorem toggleOff_imp {rest : Bool} {o' : Option ℚ} {v' : ℚ} (ho' : o' = some v')
    (hv : ¬ v' = 1) {c : Bool} :
    (decide (nullishDefault o' 0 = 1) && rest) = true → c = true := by
  subst ho'
  intro hx
  simp [nullishDefault, hv] at hx

/--
C2 (amended): for every entity and every single knob of the configuration,
changing only that knob in its permissive direction — as delimited by
`permissiveStep`, which excludes routing a threshold through the falsy value
`0` (the `||`-fallback replaces a configured `0` by the hardcoded literal,
which can be stricter) — never yields a strictly higher tier from
`calculateRisk` in the order LOW < MED < HIGH.
-/
theorem calculateRisk_relax_knob_mono (now : ℤ) (b : Boat) (t : Config) (k : Knob)
    (v v' : ℚ) (ht : knobVal t k = some v) (hp : permissiveStep k v v') :
    ((calculateRisk now b (some (setKnob t k (some v')))).level).rank ≤
      ((calculateRisk now b (some t)).level).rank := by
  cases k
  case low_vph =>
    simp only [knobVal] at ht
    obtain ⟨h0, hle⟩ := hp
    have h0' : 0 < v' := lt_of_lt_of_le h0 hle
    refine rank_le_of_relax now b t _ (List.Subset.refl _) (le_refl _) ?_
    exact meetsLow_imp now b (andImp (jsGeB_orD_imp ht rfl h0 h0' hle))
      (jsGeB_orD_imp ht rfl h0 h0' hle) id id id id id id id id id
  case low_scan_age_days =>
    simp only [knobVal] at ht
    obtain ⟨h0, hle⟩ := hp
    have h0' : 0 < v' := lt_of_lt_of_le h0 hle
    refine rank_le_of_relax now b t _ (List.Subset.refl _) (le_refl _) ?_
    exact meetsLow_imp now b id id id id id id id id
      (andImp (jsGtB_orD_imp ht rfl h0 h0' hle)) (jsGtB_orD_imp ht rfl h0 h0' hle) id
  case low_product_compliance =>
    simp only [knobVal] at ht
    obtain ⟨h0', hle⟩ := hp
    have h0 : 0 < v := lt_of_lt_of_le h0' hle
    refine rank_le_of_relax now b t _ (List.Subset.refl _) (le_refl _) ?_
    exact meetsLow_imp now b id id (andImp (jsLtB_orD_imp ht rfl h0 h0' hle))
      (jsLtB_orD_imp ht rfl h0 h0' hle) id id id id id id id
  case low_true_policy_compliance =>
    simp only [knobVal] at ht
    obtain ⟨h0', hle⟩ := hp
    have h0 : 0 < v := lt_of_lt_of_le h0' hle
    refine rank_le_of_relax now b t _ (List.Subset.refl _) (le_refl _) ?_
    exact meetsLow_imp now b id id id id
      (andImp (jsLtB_orD_imp ht rfl h0 h0' hle))
      (andImp (jsLtB_orD_imp ht rfl h0 h0' hle)) id id id id id
  case low_raw_policy_compliance =>
    simp only [knobVal] at ht
    obtain ⟨h0', hle⟩ := hp
    have h0 : 0 < v := lt_of_lt_of_le h0' hle
    refine rank_le_of_relax now b t _ (List.Subset.refl _) (le_refl _) ?_
    exact meetsLow_imp now b id id id id id id
      (andImp (jsLtB_orD_imp ht rfl h0 h0' hle))
      (andImp (jsLtB_orD_imp ht rfl h0 h0' hle)) id id id
  case low_tam_past_due =>
    simp only [knobVal] at ht
    obtain ⟨h0, hle⟩ := hp
    have h0' : 0 < v' := lt_of_lt_of_le h0 hle
    refine rank_le_of_relax now b t _ (List.Subset.refl _) (le_refl _) ?_
    exact meetsLow_imp now b id id id id id id id id id id
      (andImp (decideLt_orD_imp ht rfl h0 h0' hle))
  case med_ra_vph =>
    simp only [knobVal] at ht
    obtain ⟨h0, hle⟩ := hp
    have h0' : 0 < v' := lt_of_lt_of_le h0 hle
    refine rank_le_of_relax now b t _ (List.Subset.refl _) ?_ id
    exact medReasons_len now b (checkIf_len (andImp (jsGtB_orD_imp ht rfl h0 h0' hle)))
      (checkIf_len (jsGtB_orD_imp ht rfl h0 h0' hle)) (le_refl _) (le_refl _)
      (le_refl _) (le_refl _) (le_refl _) (le_refl _) (le_refl _) (le_refl _) (le_refl _)
  case med_ess_compliance =>
    simp only [knobVal] at ht
    obtain ⟨h0', hle⟩ := hp
    have h0 : 0 < v := lt_of_lt_of_le h0' hle
    refine rank_le_of_relax now b t _ (List.Subset.refl _) ?_ id
    exact medReasons_len now b (le_refl _) (le_refl _)
      (checkIf_len (andImp (jsLtB_orD_imp ht rfl h0 h0' hle)))
      (checkIf_len (jsLtB_orD_imp ht rfl h0 h0' hle))
      (le_refl _) (le_refl _) (le_refl _) (le_refl _) (le_refl _) (le_refl _) (le_refl _)
  case med_scan_age_days =>
    simp only [knobVal] at ht
    obtain ⟨h0, hle⟩ := hp
    have h0' : 0 < v' := lt_of_lt_of_le h0 hle
    refine rank_le_of_relax now b t _ (List.Subset.refl _) ?_ id
    exact medReasons_len now b (le_refl _) (le_refl _) (le_refl _) (le_refl _)
      (le_refl _) (le_refl _) (le_refl _) (le_refl _)
      (checkIf_len (andImp (jsGtB_orD_imp ht rfl h0 h0' hle)))
      (checkIf_len (jsGtB_orD_imp ht rfl h0 h0' hle)) (le_refl _)
  case med_tam_past_due =>
    simp only [knobVal] at ht
    obtain ⟨h0, hle⟩ := hp
    have h0' : 0 < v' := lt_of_lt_of_le h0 hle
    refine rank_le_of_relax now b t _ (List.Subset.refl _) ?_ id
    exact medReasons_len now b (le_refl _) (le_refl _) (le_refl _) (le_refl _)
      (le_refl _) (le_refl _) (le_refl _) (le_refl _) (le_refl _) (le_refl _)
      (checkIf_len (decideLt_orD_imp ht rfl h0 h0' hle))
  case med_true_policy_compliance =>
    simp only [knobVal] at ht
    rcases hp with hz | ⟨h0', hle⟩
    · subst hz
      refine rank_le_of_relax now b t _ (List.Subset.refl _) ?_ id
      exact medReasons_len now b (le_refl _) (le_refl _) (le_refl _) (le_refl _)
        (checkIf_len (guard3_zero_imp rfl)) (checkIf_len (guard_zero_imp rfl))
        (le_refl _) (le_refl _) (le_refl _) (le_refl _) (le_refl _)
    · have h0 : 0 < v := lt_of_lt_of_le h0' hle
      refine rank_le_of_relax now b t _ (List.Subset.refl _) ?_ id
      exact medReasons_len now b (le_refl _) (le_refl _) (le_refl _) (le_refl _)
        (checkIf_len (guard3_lt_imp ht rfl h0 h0' hle))
        (checkIf_len (guard2_lt_imp ht rfl h0 h0' hle))
        (le_refl _) (le_refl _) (le_refl _) (le_refl _) (le_refl _)
  case med_raw_policy_compliance =>
    simp only [knobVal] at ht
    rcases hp with hz | ⟨h0', hle⟩
    · subst hz
      refine rank_le_of_relax now b t _ (List.Subset.refl _) ?_ id
      exact medReasons_len now b (le_refl _) (le_refl _) (le_refl _) (le_refl _)
        (le_refl _) (le_refl _)
        (checkIf_len (guard3_zero_imp rfl)) (checkIf_len (guard_zero_imp rfl))
        (le_refl _) (le_refl _) (le_refl _)
    · have h0 : 0 < v := lt_of_lt_of_le h0' hle
      refine rank_le_of_relax now b t _ (List.Subset.refl _) ?_ id
      exact medReasons_len now b (le_refl _) (le_refl _) (le_refl _) (le_refl _)
        (le_refl _) (le_refl _)
        (checkIf_len (guard3_lt_imp ht rfl h0 h0' hle))
        (checkIf_len (guard2_lt_imp ht rfl h0 h0' hle))
        (le_refl _) (le_refl _) (le_refl _)
  case auto_high_ra_vph =>
    simp only [knobVal] at ht
    obtain ⟨h0, hle⟩ := hp
    have h0' : 0 < v' := lt_of_lt_of_le h0 hle
    refine rank_le_of_relax now b t _ ?_ (le_refl _) id
    exact highReasons_subset now b (List.Subset.refl _) (List.Subset.refl _)
      (checkIf_sub (andImp (jsGtB_orD_imp ht rfl h0 h0' hle)))
      (checkIf_sub (jsGtB_orD_imp ht rfl h0 h0' hle))
      (List.Subset.refl _) (List.Subset.refl _) (List.Subset.refl _) (List.Subset.refl _)
      (List.Subset.refl _) (List.Subset.refl _) (List.Subset.refl _)
  case auto_high_scan_age_days =>
    simp only [knobVal] at ht
    obtain ⟨h0, hle⟩ := hp
    have h0' : 0 < v' := lt_of_lt_of_le h0 hle
    refine rank_le_of_relax now b t _ ?_ (le_refl _) id
    exact highReasons_subset now b (List.Subset.refl _) (List.Subset.refl _)
      (List.Subset.refl _) (List.Subset.refl _)
      (checkIf_sub (andImp (jsGtB_orD_imp ht rfl h0 h0' hle)))
      (checkIf_sub (jsGtB_orD_imp ht rfl h0 h0' hle))
      (List.Subset.refl _) (List.Subset.refl _) (List.Subset.refl _) (List.Subset.refl _)
      (List.Subset.refl _)
  case high_ess_compliance =>
    simp only [knobVal] at ht
    rcases hp with hz | ⟨h0', hle⟩
    · subst hz
      refine rank_le_of_relax now b t _ ?_ (le_refl _) id
      exact highReasons_subset now b (List.Subset.refl _) (List.Subset.refl _)
        (List.Subset.refl _) (List.Subset.refl _) (List.Subset.refl _) (List.Subset.refl _)
        (checkIf_sub (guard3_zero_imp rfl)) (checkIf_sub (guard_zero_imp rfl))
        (List.Subset.refl _) (List.Subset.refl _) (List.Subset.refl _)
    · have h0 : 0 < v := lt_of_lt_of_le h0' hle
      refine rank_le_of_relax now b t _ ?_ (le_refl _) id
      exact highReasons_subset now b (List.Subset.refl _) (List.Subset.refl _)
        (List.Subset.refl _) (List.Subset.refl _) (List.Subset.refl _) (List.Subset.refl _)
        (checkIf_sub (guard3_lt_imp ht rfl h0 h0' hle))
        (checkIf_sub (guard2_lt_imp ht rfl h0 h0' hle))
        (List.Subset.refl _) (List.Subset.refl _) (List.Subset.refl _)
  case high_raw_policy_compliance =>
    simp only [knobVal] at ht
    rcases hp with hz | ⟨h0', hle⟩
    · subst hz
      refine rank_le_of_relax now b t _ ?_ (le_refl _) id
      exact highReasons_subset now b (List.Subset.refl _) (List.Subset.refl _)
        (List.Subset.refl _) (List.Subset.refl _) (List.Subset.refl _) (List.Subset.refl _)
        (List.Subset.refl _) (List.Subset.refl _)
        (checkIf_sub (guard3_zero_imp rfl)) (checkIf_sub (guard_zero_imp rfl))
        (List.Subset.refl _)
    · have h0 : 0 < v := lt_of_lt_of_le h0' hle
      refine rank_le_of_relax now b t _ ?_ (le_refl _) id
      exact highReasons_subset now b (List.Subset.refl _) (List.Subset.refl _)
        (List.Subset.refl _) (List.Subset.refl _) (List.Subset.refl _) (List.Subset.refl _)
        (List.Subset.refl _) (List.Subset.refl _)
        (checkIf_sub (guard3_lt_imp ht rfl h0 h0' hle))
        (checkIf_sub (guard2_lt_imp ht rfl h0 h0' hle))
        (List.Subset.refl _)
  case high_product_compliance =>
    simp only [knobVal] at ht
    obtain ⟨h0', hle⟩ := hp
    have h0 : 0 < v := lt_of_lt_of_le h0' hle
    refine rank_le_of_relax now b t _ ?_ (le_refl _) id
    exact highReasons_subset now b
      (checkIf_sub (guard3_lt_imp ht rfl h0 h0' hle))
      (checkIf_sub (guard2_lt_imp ht rfl h0 h0' hle))
      (List.Subset.refl _) (List.Subset.refl _) (List.Subset.refl _) (List.Subset.refl _)
      (List.Subset.refl _) (List.Subset.refl _) (List.Subset.refl _) (List.Subset.refl _)
      (List.Subset.refl _)
  case high_tam_past_due =>
    simp only [knobVal] at ht
    obtain ⟨h0, hle⟩ := hp
    have h0' : 0 < v' := lt_of_lt_of_le h0 hle
    refine rank_le_of_relax now b t _ ?_ (le_refl _) id
    exact highReasons_subset now b (List.Subset.refl _) (List.Subset.refl _)
      (List.Subset.refl _) (List.Subset.refl _) (List.Subset.refl _) (List.Subset.refl _)
      (List.Subset.refl _) (List.Subset.refl _) (List.Subset.refl _) (List.Subset.refl _)
      (checkIf_sub (decideLt_orD_imp ht rfl h0 h0' hle))
  case low_true_policy_compliance_enabled =>
    simp only [knobVal] at ht
    by_cases h1 : v' = 1
    · subst h1
      have hv1 : v = 1 := hp rfl
      subst hv1
      have heq : setKnob t Knob.low_true_policy_compliance_enabled (some 1) = t := by
        show ({ t with low_true_policy_compliance_enabled := some 1 } : Config) = t
        rw [← ht]
      rw [heq]
    · refine rank_le_of_relax now b t _ (List.Subset.refl _) (le_refl _) ?_
      refine meetsLow_imp now b id id id id ?_ ?_ id id id id id
      · intro hx
        exfalso
        simp only [lowTruePolFailNipr, truePolicyEnabled, setKnob, nullishDefault,
          Option.getD_some, Bool.and_eq_true, decide_eq_true_eq] at hx
        exact h1 hx.1.1
      · intro hx
        exfalso
        simp only [lowTruePolFailSipr, truePolicyEnabled, setKnob, nullishDefault,
          Option.getD_some, Bool.and_eq_true, decide_eq_true_eq] at hx
        exact h1 hx.1
  case low_raw_policy_compliance_enabled =>
    simp only [knobVal] at ht
    by_cases h1 : v' = 1
    · subst h1
      have hv1 : v = 1 := hp rfl
      subst hv1
      have heq : setKnob t Knob.low_raw_policy_compliance_enabled (some 1) = t := by
        show ({ t with low_raw_policy_compliance_enabled := some 1 } : Config) = t
        rw [← ht]
      rw [heq]
    · refine rank_le_of_relax now b t _ (List.Subset.refl _) (le_refl _) ?_
      refine meetsLow_imp now b id id id id id id ?_ ?_ id id id
      · intro hx
        exfalso
        simp only [lowRawPolFailNipr, rawPolicyEnabled, setKnob, nullishDefault,
          Option.getD_some, Bool.and_eq_true, decide_eq_true_eq] at hx
        exact h1 hx.1.1
      · intro hx
        exfalso
        simp only [lowRawPolFailSipr, rawPolicyEnabled, setKnob, nullishDefault,
          Option.getD_some, Bool.and_eq_true, decide_eq_true_eq] at hx
        exact h1 hx.1
  case low_tam_past_due_enabled =>
    simp only [knobVal] at ht
    by_cases h1 : v' = 1
    · subst h1
      have hv1 : v = 1 := hp rfl
      subst hv1
      have heq : setKnob t Knob.low_tam_past_due_enabled (some 1) = t := by
        show ({ t with low_tam_past_due_enabled := some 1 } : Config) = t
        rw [← ht]
      rw [heq]
    · refine rank_le_of_relax now b t _ (List.Subset.refl _) (le_refl _) ?_
      refine meetsLow_imp now b id id id id id id id id id id ?_
      intro hx; exfalso
      simp only [lowTamFail, tamEnabled, setKnob, nullishDefault, Option.getD_some,
        Bool.and_eq_true, decide_eq_true_eq] at hx
      exact h1 hx.1
  all_goals exact rank_le_of_relax now b t _ (List.Subset.refl _) (le_refl _) id

/-! ## Concrete fixtures -/

/-- A fully healthy unit in the spirit of `createHealthyBoat` (scan dates at
epoch 0, evaluated five days later by `now5d`). -/
def healthyBoat : Boat where
  isNmci := false
  isic := "COMSUBRON 1"
  tycom := "CSL"
  essNiprBreakfix := some 0
  essSiprBreakfix := some 0
  essNiprProductCompliance := some 98
  essSiprProductCompliance := some 99
  essNiprTruePolicy := some 96
  essSiprTruePolicy := some 98
  essNiprPolicyEnforced := some 98
  essSiprPolicyEnforced := some 99
  vramNiprRaVph := some 1
  vramSiprRaVph := some 1
  vramNiprScanDate := some (.valid 0)
  vramSiprScanDate := some (.valid 0)
  vramNiprAssets := some 100
  vramSiprAssets := some 50
  tamPastDue := some 2

/-- Five days after epoch, in ms. -/
def now5d : ℤ := 5 * 86400000

/-! ## C9 — a LOW tier always comes with an empty reason list -/

/--
C9: for every entity and every threshold configuration, if `calculateRisk`
returns tier LOW then the returned reasons list is empty — reasons are only
ever appended together with an escalation to MED or HIGH.
-/
theorem low_level_no_reasons (now : ℤ) (b : Boat) (cfg : Option Config)
    (h : (calculateRisk now b cfg).level = RiskLevel.LOW) :
    (calculateRisk now b cfg).reasons = [] := by
  simp only [calculateRisk] at h ⊢
  by_cases h1 : highReasons now b (cfg.getD defaultThresholds) = []
  · rw [if_pos h1] at h ⊢
    by_cases h2 : 2 ≤ (medReasons now b (cfg.getD defaultThresholds)).length
    · rw [if_pos h2] at h
      exact absurd h (by simp)
    · rw [if_neg h2] at h ⊢
      by_cases h3 : (!meetsLowCriteria now b (cfg.getD defaultThresholds)) = true
      · rw [if_pos h3] at h
        exact absurd h (by simp)
      · rw [if_neg h3]
  · rw [if_neg h1] at h ⊢
    by_cases h4 : (isScanExempt b && noVramTrig b &&
        (highReasons now b (cfg.getD defaultThresholds)).all mentionsVramData) = true
    · rw [if_pos h4] at h
      exact absurd h (by simp)
    · rw [if_neg h4] at h
      exact absurd h (by simp)

/-- C9 witness: the healthy unit is LOW, and the theorem yields its empty
reason list. -/
theorem low_level_no_reasons_witness :
    (calculateRisk now5d healthyBoat (some defaultThresholds)).reasons = [] :=
  low_level_no_reasons now5d healthyBoat (some defaultThresholds) (by decide)

/-! ## C5 — boundary policy: display tiers are inclusive, the LOW check strict -/

/-- The healthy unit with its SIPR VPH moved exactly onto the `low_vph`
threshold 2.5. -/
def vphBoundaryBoat : Boat :=
  { healthyBoat with vramSiprRaVph := some (mkRat 5 2) }

/--
C5: `vphClass` favors the better tier on boundaries — a value equal to the
green threshold 2.5 is classified best and a value equal to the red threshold
3.5 is classified mid — while in `calculateRisk` a VPH exactly equal to the
`low_vph` threshold fails the strict LOW check (`>=`), so the otherwise
healthy entity gets tier MED.
-/
theorem boundary_policy_asymmetry :
    vphClass (some (mkRat 5 2)) defaultThresholds = ColorClass.low ∧
    vphClass (some (mkRat 7 2)) defaultThresholds = ColorClass.med ∧
    (∀ (now : ℤ) (b : Boat) (t : Config),
      b.vramSiprRaVph = some (orDefault t.low_vph (mkRat 5 2)) →
      meetsLowCriteria now b t = false) ∧
    calculateRisk now5d vphBoundaryBoat (some defaultThresholds) =
      ⟨.MED, [Reason.vph .sipr (mkRat 5 2)]⟩ := by
  refine ⟨by decide, by decide, ?_, by decide⟩
  intro now b t hb
  have hfail : lowVphFailSipr b t = true := by
    unfold lowVphFailSipr jsGeB
    rw [hb]
    simp
  unfold meetsLowCriteria
  simp [hfail]

/-- C5 witness: the strict-boundary fact applied at the concrete entity. -/
theorem boundary_policy_asymmetry_witness :
    meetsLowCriteria now5d vphBoundaryBoat defaultThresholds = false :=
  boundary_policy_asymmetry.2.2.1 now5d vphBoundaryBoat defaultThresholds (by decide)

/-! ## C3 — `high_product_compliance = 0` does not disable the HIGH check -/

/-- Entity with SIPR product compliance 40%, VRAM presence on both networks,
everything else unreported. -/
def c3Boat : Boat :=
  { essSiprProductCompliance := some 40, vramNiprAssets := some 1,
    vramSiprAssets := some 1 }

/--
C3 (code bug): with the default configuration — whose
`high_product_compliance` is `0`, documented in src/thresholds.js as
"Disabled - Low product compliance doesn't auto-trigger HIGH" — the HIGH
product-compliance check still fires: `t.high_product_compliance || 50`
turns the falsy `0` into a threshold of `50`, so a 40% entity is escalated
to HIGH with a product-compliance reason.
-/
theorem high_product_zero_still_fires :
    defaultThresholds.high_product_compliance = some 0 ∧
    calculateRisk 0 c3Boat (some defaultThresholds) =
      ⟨.HIGH, [Reason.prodComp .sipr 40]⟩ :=
  ⟨rfl, by decide⟩

/-! ## C8 — null/undefined configs resolve to the defaults; `{}` does not -/

/--
C8 (amended): calling `calculateRisk` with a `null`/`undefined`/omitted
thresholds argument is identical to calling it with the complete
`defaultThresholds`.  (The original claim also equated the empty config `{}`
with the defaults; `empty_config_differs_cex` refutes that part, because the
literal fallbacks differ from the default values for `auto_high_ra_vph`
(5 vs 999), `auto_high_scan_age_days` (30 vs 999), `high_ess_compliance`
(0 vs 90) and `med_true_policy_compliance` (0 vs 95).)
-/
theorem null_config_uses_defaults (now : ℤ) (b : Boat) :
    calculateRisk now b none = calculateRisk now b (some defaultThresholds) := rfl

/-- Entity whose SIPR true-policy compliance is 50%, with VRAM presence. -/
def c8Boat : Boat :=
  { essSiprTruePolicy := some 50, vramNiprAssets := some 1,
    vramSiprAssets := some 1 }

/-- C8 counterexample: a null config classifies `c8Boat` HIGH (the default
`high_ess_compliance = 90` applies), while the empty config `{}` classifies
it LOW (the literal fallback `0` disables the check) — so `{}` is not
equivalent to the defaults. -/
theorem empty_config_differs_cex :
    (calculateRisk 0 c8Boat none).level = RiskLevel.HIGH ∧
    (calculateRisk 0 c8Boat (some emptyConfig)).level = RiskLevel.LOW :=
  ⟨by decide, by decide⟩

/-! ## C2 — counterexample and witness -/

/-- Entity with SIPR product compliance 80%, VRAM presence on SIPR. -/
def c2Boat : Boat :=
  { essSiprProductCompliance := some 80, vramSiprAssets := some 1 }

/-- A config like the defaults but with `low_product_compliance` at 50. -/
def c2Strict : Config :=
  { defaultThresholds with low_product_compliance := some 50 }

/--
C2 counterexample: lowering the lower-bound knob `low_product_compliance`
(permissive direction) from 50 all the way to 0 raises the tier of a fixed
entity from LOW to MED — the `|| 95` fallback reads the falsy `0` as missing
and substitutes the stricter literal 95.
-/
theorem relax_to_zero_raises_tier_cex :
    (calculateRisk 0 c2Boat (some c2Strict)).level = RiskLevel.LOW ∧
    (calculateRisk 0 c2Boat
      (some (setKnob c2Strict Knob.low_product_compliance (some 0)))).level =
      RiskLevel.MED :=
  ⟨by decide, by decide⟩

/-- C2 witness: raising `auto_high_ra_vph` from its default 999 to 1000 on a
concrete entity, via the monotonicity theorem. -/
theorem calculateRisk_relax_knob_mono_witness :
    ((calculateRisk now5d healthyBoat
        (some (setKnob defaultThresholds Knob.auto_high_ra_vph (some 1000)))).level).rank ≤
      ((calculateRisk now5d healthyBoat (some defaultThresholds)).level).rank :=
  calculateRisk_relax_knob_mono now5d healthyBoat defaultThresholds Knob.auto_high_ra_vph
    999 1000 rfl ⟨by norm_num, by norm_num⟩

/-! ## C6 — the scan-exempt downgrade -/

/--
C6: an entity with no telemetry presence on any required network whose other
HIGH triggers are all silent and whose scan-exemption flags are all true is
downgraded to MED with reasons exactly `['No VRAM data', 'Scan Exempt']`;
and whenever any HIGH reason other than the missing-telemetry one is present,
the downgrade is blocked and the tier stays HIGH.
-/
theorem noVram_exempt_downgrade :
    (∀ (now : ℤ) (b : Boat) (t : Config),
      bfNiprHigh b = [] → bfSiprHigh b = [] →
      noVramTrig b = true →
      prodHighNipr b t = [] → prodHighSipr b t = [] →
      vphHighNipr b t = [] → vphHighSipr b t = [] →
      scanHighNipr now b t = [] → scanHighSipr now b t = [] →
      truePolHighNipr b t = [] → truePolHighSipr b t = [] →
      rawPolHighNipr b t = [] → rawPolHighSipr b t = [] →
      tamHigh b t = [] →
      b.vramNiprScanExempt = true → b.vramSiprScanExempt = true →
      calculateRisk now b (some t) = ⟨.MED, [Reason.noVramData, Reason.scanExempt]⟩) ∧
    (∀ (now : ℤ) (b : Boat) (t : Config) (r : Reason),
      r ∈ highReasons now b t → mentionsVramData r = false →
      (calculateRisk now b (some t)).level = RiskLevel.HIGH) := by
  constructor
  · intro now b t h1 h2 hnv h4 h5 h6 h7 h8 h9 h10 h11 h12 h13 h14 hexN hexS
    have hhr : highReasons now b t = [Reason.noVramData] := by
      unfold highReasons noVramHigh
      rw [h1, h2, h4, h5, h6, h7, h8, h9, h10, h11, h12, h13, h14, hnv]
      rfl
    have hex : isScanExempt b = true := by
      unfold isScanExempt
      rw [hexN, hexS]
      split <;> rfl
    simp only [calculateRisk, Option.getD_some]
    rw [if_neg (by rw [hhr]; exact List.cons_ne_nil _ _)]
    rw [if_pos (by rw [hex, hnv, hhr]; rfl)]
    rw [hhr]
    rfl
  · intro now b t r hr hm
    have h1 : highReasons now b t ≠ [] := List.ne_nil_of_mem hr
    have hnc : ¬(isScanExempt b && noVramTrig b &&
        (highReasons now b t).all mentionsVramData) = true := by
      intro hc
      simp only [Bool.and_eq_true, List.all_eq_true] at hc
      have hr2 := hc.2 r hr
      rw [hm] at hr2
      cases hr2
    simp only [calculateRisk, Option.getD_some]
    rw [if_neg h1, if_neg hnc]

/-- Entity with ESS data but no VRAM signal at all, both exemption flags set. -/
def noVramExemptBoat : Boat :=
  { essNiprBreakfix := some 0, essSiprBreakfix := some 0,
    essNiprProductCompliance := some 98, essSiprProductCompliance := some 99,
    essNiprTruePolicy := some 96, essSiprTruePolicy := some 98,
    essNiprPolicyEnforced := some 98, essSiprPolicyEnforced := some 99,
    vramNiprScanExempt := true, vramSiprScanExempt := true, tamPastDue := some 2 }

/-- C6 witness: the downgrade on a concrete exempt no-telemetry entity. -/
theorem noVram_exempt_downgrade_witness :
    calculateRisk 0 noVramExemptBoat (some defaultThresholds) =
      ⟨.MED, [Reason.noVramData, Reason.scanExempt]⟩ :=
  noVram_exempt_downgrade.1 0 noVramExemptBoat defaultThresholds (by decide) (by decide)
    (by decide) (by decide) (by decide) (by decide) (by decide) (by decide) (by decide)
    (by decide) (by decide) (by decide) (by decide) (by decide) rfl rfl

/-! ## C4 — NMCI (single-network-mode) isolation of the excluded network -/

theorem mem_checkIf {c : Bool} {r0 r : Reason} (h : r ∈ checkIf c r0) : r = r0 := by
  unfold checkIf at h
  split at h
  · simpa using h
  · cases h

/-- Every reason returned by `calculateRisk` comes from the HIGH stage, the
MED stage, the LOW stage, or is the appended `'Scan Exempt'`. -/
theorem mem_reasons_src (now : ℤ) (b : Boat) (cfg : Option Config) {r : Reason}
    (h : r ∈ (calculateRisk now b cfg).reasons) :
    r ∈ highReasons now b (cfg.getD defaultThresholds) ∨ r = Reason.scanExempt ∨
    r ∈ medReasons now b (cfg.getD defaultThresholds) ∨
    r ∈ lowReasons now b (cfg.getD defaultThresholds) := by
  simp only [calculateRisk] at h
  split at h
  · split at h
    · exact Or.inr (Or.inr (Or.inl h))
    · split at h
      · exact Or.inr (Or.inr (Or.inr h))
      · cases h
  · split at h
    · rcases List.mem_append.1 h with h2 | h2
      · exact Or.inl h2
      · simp only [List.mem_singleton] at h2
        exact Or.inr (Or.inl h2)
    · exact Or.inl h

theorem highReasons_no_nipr (now : ℤ) (b : Boat) (t : Config) (hb : b.isNmci = true)
    {r : Reason} (h : r ∈ highReasons now b t) : reasonNet r ≠ some Network.nipr := by
  unfold highReasons at h
  simp only [List.mem_append] at h
  rcases h with ((((((((((((h|h)|h)|h)|h)|h)|h)|h)|h)|h)|h)|h)|h)|h
  · simp [bfNiprHigh, hb, checkIf] at h
  · rw [mem_checkIf h]; simp [reasonNet]
  · rw [mem_checkIf h]; simp [reasonNet]
  · simp [prodHighNipr, hb, checkIf] at h
  · rw [mem_checkIf h]; simp [reasonNet]
  · simp [vphHighNipr, hb, checkIf] at h
  · rw [mem_checkIf h]; simp [reasonNet]
  · simp [scanHighNipr, hb, checkIf] at h
  · rw [mem_checkIf h]; simp [reasonNet]
  · simp [truePolHighNipr, hb, checkIf] at h
  · rw [mem_checkIf h]; simp [reasonNet]
  · simp [rawPolHighNipr, hb, checkIf] at h
  · rw [mem_checkIf h]; simp [reasonNet]
  · rw [mem_checkIf h]; simp [reasonNet]

theorem medReasons_no_nipr (now : ℤ) (b : Boat) (t : Config) (hb : b.isNmci = true)
    {r : Reason} (h : r ∈ medReasons now b t) : reasonNet r ≠ some Network.nipr := by
  unfold medReasons at h
  simp only [List.mem_append] at h
  rcases h with ((((((((((h|h)|h)|h)|h)|h)|h)|h)|h)|h)|h)
  · simp [vphMedNipr, hb, checkIf] at h
  · rw [mem_checkIf h]; simp [reasonNet]
  · simp [prodMedNipr, hb, checkIf] at h
  · rw [mem_checkIf h]; simp [reasonNet]
  · simp [truePolMedNipr, hb, checkIf] at h
  · rw [mem_checkIf h]; simp [reasonNet]
  · simp [rawPolMedNipr, hb, checkIf] at h
  · rw [mem_checkIf h]; simp [reasonNet]
  · simp [scanMedNipr, hb, checkIf] at h
  · rw [mem_checkIf h]; simp [reasonNet]
  · rw [mem_checkIf h]; simp [reasonNet]

theorem lowReasons_no_nipr (now : ℤ) (b : Boat) (t : Config) (hb : b.isNmci = true)
    {r : Reason} (h : r ∈ lowReasons now b t) : reasonNet r ≠ some Network.nipr := by
  unfold lowReasons at h
  simp only [List.mem_append] at h
  rcases h with ((((((((((h|h)|h)|h)|h)|h)|h)|h)|h)|h)|h)
  · simp [lowVphFailNipr, hb, checkIf] at h
  · rw [mem_checkIf h]; simp [reasonNet]
  · simp [lowProdFailNipr, hb, checkIf] at h
  · rw [mem_checkIf h]; simp [reasonNet]
  · simp [lowTruePolFailNipr, hb, checkIf] at h
  · rw [mem_checkIf h]; simp [reasonNet]
  · simp [lowRawPolFailNipr, hb, checkIf] at h
  · rw [mem_checkIf h]; simp [reasonNet]
  · simp [lowScanFailNipr, hb, checkIf] at h
  · rw [mem_checkIf h]; simp [reasonNet]
  · rw [mem_checkIf h]; simp [reasonNet]

/--
C4 (amended): for an `isNmci` (single-network-mode) entity, no NIPR (excluded
network) field value ever appears in the returned reasons — every reason is
network-free or tagged SIPR — and mutating any NIPR field other than the
scan-exemption flag (breakfix, product compliance, true policy, raw policy,
VPH, scan date, assets) leaves the entire result, tier and reasons, unchanged.
(The original claim's "never changes the tier" fails for the
`vramNiprScanExempt` flag, which the exemption downgrade reads even for NMCI
entities: see the counterexample.)
-/
theorem nmci_nipr_isolation :
    (∀ (now : ℤ) (b : Boat) (cfg : Option Config) (r : Reason),
      b.isNmci = true → r ∈ (calculateRisk now b cfg).reasons →
      reasonNet r ≠ some Network.nipr) ∧
    (∀ (now : ℤ) (b : Boat) (cfg : Option Config) (x1 x2 x3 x4 x5 : Option ℚ)
      (d : Option JSDate) (a : Option ℚ), b.isNmci = true →
      calculateRisk now
        { b with
          essNiprBreakfix := x1, essNiprProductCompliance := x2,
          essNiprTruePolicy := x3, essNiprPolicyEnforced := x4, vramNiprRaVph := x5,
          vramNiprScanDate := d, vramNiprAssets := a } cfg = calculateRisk now b cfg) := by
  constructor
  · intro now b cfg r hb hr
    rcases mem_reasons_src now b cfg hr with h | h | h | h
    · exact highReasons_no_nipr now b _ hb h
    · subst h; simp [reasonNet]
    · exact medReasons_no_nipr now b _ hb h
    · exact lowReasons_no_nipr now b _ hb h
  · intro now b cfg x1 x2 x3 x4 x5 d a hb
    set b' : Boat :=
      { b with
        essNiprBreakfix := x1, essNiprProductCompliance := x2,
        essNiprTruePolicy := x3, essNiprPolicyEnforced := x4, vramNiprRaVph := x5,
        vramNiprScanDate := d, vramNiprAssets := a } with hbdef
    set t : Config := cfg.getD defaultThresholds with htdef
    have ehr : highReasons now b' t = highReasons now b t := by
      simp [hbdef, highReasons, bfNiprHigh, bfSiprHigh, noVramHigh, noVramTrig,
        hasAnyVramData, hasNiprVramData, hasSiprVramData, prodHighNipr, prodHighSipr,
        vphHighNipr, vphHighSipr, scanHighNipr, scanHighSipr, nAgeOf, sAgeOf,
        truePolHighNipr, truePolHighSipr, rawPolHighNipr, rawPolHighSipr, tamHigh,
        checkIf, hb]
    have emr : medReasons now b' t = medReasons now b t := by
      simp [hbdef, medReasons, vphMedNipr, vphMedSipr, prodMedNipr, prodMedSipr,
        truePolMedNipr, truePolMedSipr, rawPolMedNipr, rawPolMedSipr, scanMedNipr,
        scanMedSipr, tamMed, nAgeOf, sAgeOf, checkIf, hb]
    have emeets : meetsLowCriteria now b' t = meetsLowCriteria now b t := by
      simp [hbdef, meetsLowCriteria, lowVphFailNipr, lowVphFailSipr, lowProdFailNipr,
        lowProdFailSipr, lowTruePolFailNipr, lowTruePolFailSipr, lowRawPolFailNipr,
        lowRawPolFailSipr, lowScanFailNipr, lowScanFailSipr, lowTamFail, nAgeOf, sAgeOf, hb]
    have elow : lowReasons now b' t = lowReasons now b t := by
      simp [hbdef, lowReasons, lowVphFailNipr, lowVphFailSipr, lowProdFailNipr,
        lowProdFailSipr, lowTruePolFailNipr, lowTruePolFailSipr, lowRawPolFailNipr,
        lowRawPolFailSipr, lowScanFailNipr, lowScanFailSipr, lowTamFail, nAgeOf, sAgeOf,
        checkIf, hb]
    have envt : noVramTrig b' = noVramTrig b := by
      simp [hbdef, noVramTrig, hasAnyVramData, hasNiprVramData, hasSiprVramData, hb]
    have eex : isScanExempt b' = isScanExempt b := rfl
    simp only [calculateRisk]
    rw [← htdef, ehr, emr, emeets, elow, envt, eex]

/-- NMCI entity with no SIPR telemetry and both exemption flags true. -/
def nmciExemptBoat : Boat :=
  { isNmci := true, vramNiprScanExempt := true, vramSiprScanExempt := true,
    essSiprBreakfix := some 0, essSiprProductCompliance := some 99,
    essSiprTruePolicy := some 98, essSiprPolicyEnforced := some 99 }

/--
C4 counterexample: for an NMCI entity, flipping the excluded network's
`vramNiprScanExempt` flag — a secondary-network field — changes the tier
(MED with the flag, HIGH without it), because the exemption eligibility of an
NMCI entity requires BOTH enclaves' flags.
-/
theorem nmci_exempt_flag_changes_tier_cex :
    nmciExemptBoat.isNmci = true ∧
    (calculateRisk 0 nmciExemptBoat (some defaultThresholds)).level = RiskLevel.MED ∧
    (calculateRisk 0 { nmciExemptBoat with vramNiprScanExempt := false }
      (some defaultThresholds)).level = RiskLevel.HIGH :=
  ⟨rfl, by decide, by decide⟩

/-- NMCI variant of the healthy entity. -/
def nmciBoat : Boat := { healthyBoat with isNmci := true }

/-- C4 witness: mutating the non-exempt NIPR fields of a concrete NMCI entity
leaves the result unchanged. -/
theorem nmci_nipr_isolation_witness :
    calculateRisk now5d
      { nmciBoat with
        essNiprBreakfix := some 7, essNiprProductCompliance := some 1,
        essNiprTruePolicy := some 1, essNiprPolicyEnforced := some 1,
        vramNiprRaVph := some 99, vramNiprScanDate := none,
        vramNiprAssets := none } (some defaultThresholds) =
      calculateRisk now5d nmciBoat (some defaultThresholds) :=
  nmci_nipr_isolation.2 now5d nmciBoat (some defaultThresholds) (some 7) (some 1)
    (some 1) (some 1) (some 99) none none rfl

/-! ## C1 — malformed fields: the classifier can throw -/

/-- The failing input: an entity whose SIPR product compliance is the numeric
string `"42"` (all other fields `null`), as produced by e.g. unconverted
spreadsheet cells. -/
def c1BoatJS : BoatJS := { essSiprProductCompliance := JSVal.str "42" }

/--
C1 (code bug): `calculateRisk` on an entity whose SIPR product compliance is
the numeric string `"42"`, with the default thresholds, throws a `TypeError`:
the comparison `"42" < 50` coerces and succeeds, and the reason template then
calls `.toFixed(1)` on the string.  This contradicts the spec's "never
throws; wrong-typed fields are treated as no value and skipped" and the test
suite's fuzz expectation that invalid boats never throw.
-/
theorem calculateRiskJS_throws_on_numeric_string :
    calculateRiskJS 0 c1BoatJS defaultThresholds =
      Except.error "TypeError: toFixed is not a function" := by rfl

/-! ## C7 — per-group aggregation averages -/

theorem aggStepRisk_metrics (st : SumState) (b : Boat) :
    (aggStepRisk st b).nProdSum = st.nProdSum ∧ (aggStepRisk st b).nProdCnt = st.nProdCnt ∧
    (aggStepRisk st b).nPolSum = st.nPolSum ∧ (aggStepRisk st b).nPolCnt = st.nPolCnt ∧
    (aggStepRisk st b).nPolRawSum = st.nPolRawSum ∧
    (aggStepRisk st b).nPolRawCnt = st.nPolRawCnt ∧
    (aggStepRisk st b).sProdSum = st.sProdSum ∧ (aggStepRisk st b).sProdCnt = st.sProdCnt ∧
    (aggStepRisk st b).sPolSum = st.sPolSum ∧ (aggStepRisk st b).sPolCnt = st.sPolCnt ∧
    (aggStepRisk st b).sPolRawSum = st.sPolRawSum ∧
    (aggStepRisk st b).sPolRawCnt = st.sPolRawCnt := by
  unfold aggStepRisk
  split_ifs <;> simp

theorem aggStepExempt_metrics (st : SumState) (b : Boat) :
    (aggStepExempt st b).nProdSum = st.nProdSum ∧ (aggStepExempt st b).nProdCnt = st.nProdCnt ∧
    (aggStepExempt st b).nPolSum = st.nPolSum ∧ (aggStepExempt st b).nPolCnt = st.nPolCnt ∧
    (aggStepExempt st b).nPolRawSum = st.nPolRawSum ∧
    (aggStepExempt st b).nPolRawCnt = st.nPolRawCnt ∧
    (aggStepExempt st b).sProdSum = st.sProdSum ∧ (aggStepExempt st b).sProdCnt = st.sProdCnt ∧
    (aggStepExempt st b).sPolSum = st.sPolSum ∧ (aggStepExempt st b).sPolCnt = st.sPolCnt ∧
    (aggStepExempt st b).sPolRawSum = st.sPolRawSum ∧
    (aggStepExempt st b).sPolRawCnt = st.sPolRawCnt := by
  unfold aggStepExempt
  split_ifs <;> simp

theorem aggStepNipr_metrics (st : SumState) (b : Boat) :
    (aggStepNipr st b).nProdSum =
      st.nProdSum + (if b.isNmci then 0 else b.essNiprProductCompliance.getD 0) ∧
    (aggStepNipr st b).nProdCnt =
      st.nProdCnt + (if b.isNmci then 0 else if b.essNiprProductCompliance.isSome then 1 else 0) ∧
    (aggStepNipr st b).nPolSum =
      st.nPolSum + (if b.isNmci then 0 else b.essNiprTruePolicy.getD 0) ∧
    (aggStepNipr st b).nPolCnt =
      st.nPolCnt + (if b.isNmci then 0 else if b.essNiprTruePolicy.isSome then 1 else 0) ∧
    (aggStepNipr st b).nPolRawSum =
      st.nPolRawSum + (if b.isNmci then 0 else b.essNiprPolicyEnforced.getD 0) ∧
    (aggStepNipr st b).nPolRawCnt =
      st.nPolRawCnt + (if b.isNmci then 0 else if b.essNiprPolicyEnforced.isSome then 1 else 0) ∧
    (aggStepNipr st b).sProdSum = st.sProdSum ∧ (aggStepNipr st b).sProdCnt = st.sProdCnt ∧
    (aggStepNipr st b).sPolSum = st.sPolSum ∧ (aggStepNipr st b).sPolCnt = st.sPolCnt ∧
    (aggStepNipr st b).sPolRawSum = st.sPolRawSum ∧
    (aggStepNipr st b).sPolRawCnt = st.sPolRawCnt := by
  unfold aggStepNipr
  rcases hn : b.isNmci
  · rcases h1 : b.essNiprProductCompliance <;> rcases h2 : b.essNiprTruePolicy <;>
      rcases h3 : b.essNiprPolicyEnforced <;> simp [hn, h1, h2, h3]
  · simp [hn]

theorem aggStepSipr_metrics (st : SumState) (b : Boat) :
    (aggStepSipr st b).nProdSum = st.nProdSum ∧ (aggStepSipr st b).nProdCnt = st.nProdCnt ∧
    (aggStepSipr st b).nPolSum = st.nPolSum ∧ (aggStepSipr st b).nPolCnt = st.nPolCnt ∧
    (aggStepSipr st b).nPolRawSum = st.nPolRawSum ∧
    (aggStepSipr st b).nPolRawCnt = st.nPolRawCnt ∧
    (aggStepSipr st b).sProdSum = st.sProdSum + b.essSiprProductCompliance.getD 0 ∧
    (aggStepSipr st b).sProdCnt =
      st.sProdCnt + (if b.essSiprProductCompliance.isSome then 1 else 0) ∧
    (aggStepSipr st b).sPolSum = st.sPolSum + b.essSiprTruePolicy.getD 0 ∧
    (aggStepSipr st b).sPolCnt = st.sPolCnt + (if b.essSiprTruePolicy.isSome then 1 else 0) ∧
    (aggStepSipr st b).sPolRawSum = st.sPolRawSum + b.essSiprPolicyEnforced.getD 0 ∧
    (aggStepSipr st b).sPolRawCnt =
      st.sPolRawCnt + (if b.essSiprPolicyEnforced.isSome then 1 else 0) := by
  unfold aggStepSipr
  rcases h1 : b.essSiprProductCompliance <;> rcases h2 : b.essSiprTruePolicy <;>
    rcases h3 : b.essSiprPolicyEnforced <;> simp [h1, h2, h3]

theorem aggStep_metrics (st : SumState) (b : Boat) :
    (aggStep st b).nProdSum =
      st.nProdSum + (if b.isNmci then 0 else b.essNiprProductCompliance.getD 0) ∧
    (aggStep st b).nProdCnt =
      st.nProdCnt + (if b.isNmci then 0 else if b.essNiprProductCompliance.isSome then 1 else 0) ∧
    (aggStep st b).nPolSum =
      st.nPolSum + (if b.isNmci then 0 else b.essNiprTruePolicy.getD 0) ∧
    (aggStep st b).nPolCnt =
      st.nPolCnt + (if b.isNmci then 0 else if b.essNiprTruePolicy.isSome then 1 else 0) ∧
    (aggStep st b).nPolRawSum =
      st.nPolRawSum + (if b.isNmci then 0 else b.essNiprPolicyEnforced.getD 0) ∧
    (aggStep st b).nPolRawCnt =
      st.nPolRawCnt + (if b.isNmci then 0 else if b.essNiprPolicyEnforced.isSome then 1 else 0) ∧
    (aggStep st b).sProdSum = st.sProdSum + b.essSiprProductCompliance.getD 0 ∧
    (aggStep st b).sProdCnt =
      st.sProdCnt + (if b.essSiprProductCompliance.isSome then 1 else 0) ∧
    (aggStep st b).sPolSum = st.sPolSum + b.essSiprTruePolicy.getD 0 ∧
    (aggStep st b).sPolCnt = st.sPolCnt + (if b.essSiprTruePolicy.isSome then 1 else 0) ∧
    (aggStep st b).sPolRawSum = st.sPolRawSum + b.essSiprPolicyEnforced.getD 0 ∧
    (aggStep st b).sPolRawCnt =
      st.sPolRawCnt + (if b.essSiprPolicyEnforced.isSome then 1 else 0) := by
  obtain ⟨e1, e2, e3, e4, e5, e6, e7, e8, e9, e10, e11, e12⟩ :=
    aggStepExempt_metrics (aggStepRisk (aggStepSipr (aggStepNipr st b) b) b) b
  obtain ⟨r1, r2, r3, r4, r5, r6, r7, r8, r9, r10, r11, r12⟩ :=
    aggStepRisk_metrics (aggStepSipr (aggStepNipr st b) b) b
  obtain ⟨s1, s2, s3, s4, s5, s6, s7, s8, s9, s10, s11, s12⟩ :=
    aggStepSipr_metrics (aggStepNipr st b) b
  obtain ⟨n1, n2, n3, n4, n5, n6, n7, n8, n9, n10, n11, n12⟩ := aggStepNipr_metrics st b
  unfold aggStep
  exact ⟨by rw [e1, r1, s1, n1], by rw [e2, r2, s2, n2], by rw [e3, r3, s3, n3],
    by rw [e4, r4, s4, n4], by rw [e5, r5, s5, n5], by rw [e6, r6, s6, n6],
    by rw [e7, r7, s7, n7], by rw [e8, r8, s8, n8], by rw [e9, r9, s9, n9],
    by rw [e10, r10, s10, n10], by rw [e11, r11, s11, n11], by rw [e12, r12, s12, n12]⟩

theorem foldl_aggStep_metrics (g : List Boat) : ∀ st : SumState,
    (g.foldl aggStep st).nProdSum = st.nProdSum +
      ((g.filter (fun b => !b.isNmci)).filterMap (fun b => b.essNiprProductCompliance)).sum ∧
    (g.foldl aggStep st).nProdCnt = st.nProdCnt +
      ((g.filter (fun b => !b.isNmci)).filterMap (fun b => b.essNiprProductCompliance)).length ∧
    (g.foldl aggStep st).nPolSum = st.nPolSum +
      ((g.filter (fun b => !b.isNmci)).filterMap (fun b => b.essNiprTruePolicy)).sum ∧
    (g.foldl aggStep st).nPolCnt = st.nPolCnt +
      ((g.filter (fun b => !b.isNmci)).filterMap (fun b => b.essNiprTruePolicy)).length ∧
    (g.foldl aggStep st).nPolRawSum = st.nPolRawSum +
      ((g.filter (fun b => !b.isNmci)).filterMap (fun b => b.essNiprPolicyEnforced)).sum ∧
    (g.foldl aggStep st).nPolRawCnt = st.nPolRawCnt +
      ((g.filter (fun b => !b.isNmci)).filterMap (fun b => b.essNiprPolicyEnforced)).length ∧
    (g.foldl aggStep st).sProdSum = st.sProdSum +
      (g.filterMap (fun b => b.essSiprProductCompliance)).sum ∧
    (g.foldl aggStep st).sProdCnt = st.sProdCnt +
      (g.filterMap (fun b => b.essSiprProductCompliance)).length ∧
    (g.foldl aggStep st).sPolSum = st.sPolSum +
      (g.filterMap (fun b => b.essSiprTruePolicy)).sum ∧
    (g.foldl aggStep st).sPolCnt = st.sPolCnt +
      (g.filterMap (fun b => b.essSiprTruePolicy)).length ∧
    (g.foldl aggStep st).sPolRawSum = st.sPolRawSum +
      (g.filterMap (fun b => b.essSiprPolicyEnforced)).sum ∧
    (g.foldl aggStep st).sPolRawCnt = st.sPolRawCnt +
      (g.filterMap (fun b => b.essSiprPolicyEnforced)).length := by
  induction g with
  | nil => intro st; simp
  | cons b g ih =>
    intro st
    obtain ⟨i1, i2, i3, i4, i5, i6, i7, i8, i9, i10, i11, i12⟩ := ih (aggStep st b)
    obtain ⟨a1, a2, a3, a4, a5, a6, a7, a8, a9, a10, a11, a12⟩ := aggStep_metrics st b
    simp only [List.foldl_cons]
    refine ⟨?_, ?_, ?_, ?_, ?_, ?_, ?_, ?_, ?_, ?_, ?_, ?_⟩
    · rw [i1, a1]
      rcases hn : b.isNmci
      · rcases h : b.essNiprProductCompliance <;>
          simp [List.filter_cons, List.filterMap_cons, hn, h] <;> ring
      · simp [List.filter_cons, hn]
    · rw [i2, a2]
      rcases hn : b.isNmci
      · rcases h : b.essNiprProductCompliance <;>
          simp [List.filter_cons, List.filterMap_cons, hn, h] <;> omega
      · simp [List.filter_cons, hn]
    · rw [i3, a3]
      rcases hn : b.isNmci
      · rcases h : b.essNiprTruePolicy <;>
          simp [List.filter_cons, List.filterMap_cons, hn, h] <;> ring
      · simp [List.filter_cons, hn]
    · rw [i4, a4]
      rcases hn : b.isNmci
      · rcases h : b.essNiprTruePolicy <;>
          simp [List.filter_cons, List.filterMap_cons, hn, h] <;> omega
      · simp [List.filter_cons, hn]
    · rw [i5, a5]
      rcases hn : b.isNmci
      · rcases h : b.essNiprPolicyEnforced <;>
          simp [List.filter_cons, List.filterMap_cons, hn, h] <;> ring
      · simp [List.filter_cons, hn]
    · rw [i6, a6]
      rcases hn : b.isNmci
      · rcases h : b.essNiprPolicyEnforced <;>
          simp [List.filter_cons, List.filterMap_cons, hn, h] <;> omega
      · simp [List.filter_cons, hn]
    · rw [i7, a7]
      rcases h : b.essSiprProductCompliance <;>
        simp [List.filterMap_cons, h] <;> ring
    · rw [i8, a8]
      rcases h : b.essSiprProductCompliance <;>
        simp [List.filterMap_cons, h] <;> omega
    · rw [i9, a9]
      rcases h : b.essSiprTruePolicy <;>
        simp [List.filterMap_cons, h] <;> ring
    · rw [i10, a10]
      rcases h : b.essSiprTruePolicy <;>
        simp [List.filterMap_cons, h] <;> omega
    · rw [i11, a11]
      rcases h : b.essSiprPolicyEnforced <;>
        simp [List.filterMap_cons, h] <;> ring
    · rw [i12, a12]
      rcases h : b.essSiprPolicyEnforced <;>
        simp [List.filterMap_cons, h] <;> omega

/-- Modelled from the spec's words, for comparison with `mkAgg`: the
arithmetic mean of the reported values, capped at 100, `0` when none. -/
def specMeanCapped (l : List ℚ) : ℚ :=
  if l = [] then 0 else min 100 (l.sum / (l.length : ℚ))

theorem mkAgg_avgs (info : ISICInfo) (g : List Boat) :
    (mkAgg info g).niprProdCompAvg =
      specMeanCapped ((g.filter (fun b => !b.isNmci)).filterMap
        (fun b => b.essNiprProductCompliance)) ∧
    (mkAgg info g).niprPolEnfAvg =
      specMeanCapped ((g.filter (fun b => !b.isNmci)).filterMap
        (fun b => b.essNiprTruePolicy)) ∧
    (mkAgg info g).niprPolRawAvg =
      specMeanCapped ((g.filter (fun b => !b.isNmci)).filterMap
        (fun b => b.essNiprPolicyEnforced)) ∧
    (mkAgg info g).siprProdCompAvg =
      specMeanCapped (g.filterMap (fun b => b.essSiprProductCompliance)) ∧
    (mkAgg info g).siprPolEnfAvg =
      specMeanCapped (g.filterMap (fun b => b.essSiprTruePolicy)) ∧
    (mkAgg info g).siprPolRawAvg =
      specMeanCapped (g.filterMap (fun b => b.essSiprPolicyEnforced)) := by
  obtain ⟨f1, f2, f3, f4, f5, f6, f7, f8, f9, f10, f11, f12⟩ :=
    foldl_aggStep_metrics g {}
  simp only [mkAgg, specMeanCapped]
  refine ⟨?_, ?_, ?_, ?_, ?_, ?_⟩
  · rw [f1, f2]
    by_cases hl : ((g.filter (fun b => !b.isNmci)).filterMap
        (fun b => b.essNiprProductCompliance)) = []
    · simp [hl]
    · have hp : 0 < ((g.filter (fun b => !b.isNmci)).filterMap
          (fun b => b.essNiprProductCompliance)).length := List.length_pos.2 hl
      simp [hl, hp]
  · rw [f3, f4]
    by_cases hl : ((g.filter (fun b => !b.isNmci)).filterMap
        (fun b => b.essNiprTruePolicy)) = []
    · simp [hl]
    · have hp : 0 < ((g.filter (fun b => !b.isNmci)).filterMap
          (fun b => b.essNiprTruePolicy)).length := List.length_pos.2 hl
      simp [hl, hp]
  · rw [f5, f6]
    by_cases hl : ((g.filter (fun b => !b.isNmci)).filterMap
        (fun b => b.essNiprPolicyEnforced)) = []
    · simp [hl]
    · have hp : 0 < ((g.filter (fun b => !b.isNmci)).filterMap
          (fun b => b.essNiprPolicyEnforced)).length := List.length_pos.2 hl
      simp [hl, hp]
  · rw [f7, f8]
    by_cases hl : (g.filterMap (fun b => b.essSiprProductCompliance)) = []
    · simp [hl]
    · have hp : 0 < (g.filterMap (fun b => b.essSiprProductCompliance)).length :=
        List.length_pos.2 hl
      simp [hl, hp]
  · rw [f9, f10]
    by_cases hl : (g.filterMap (fun b => b.essSiprTruePolicy)) = []
    · simp [hl]
    · have hp : 0 < (g.filterMap (fun b => b.essSiprTruePolicy)).length :=
        List.length_pos.2 hl
      simp [hl, hp]
  · rw [f11, f12]
    by_cases hl : (g.filterMap (fun b => b.essSiprPolicyEnforced)) = []
    · simp [hl]
    · have hp : 0 < (g.filterMap (fun b => b.essSiprPolicyEnforced)).length :=
        List.length_pos.2 hl
      simp [hl, hp]

def boat90 : Boat := { isic := "SQ1", tycom := "CSL", essSiprProductCompliance := some 90 }

def boat100 : Boat := { isic := "SQ1", tycom := "CSL", essSiprProductCompliance := some 100 }

/--
C7: in `aggregateByISIC`, each per-group compliance-style average equals the
arithmetic mean of that metric over exactly the entities that report a value
for that network (the NIPR averages exclude single-network-mode entities),
capped at 100, and is 0 when no entity contributes; aggregating an empty
collection yields the empty result without any division error; and two
same-group entities with product compliance 90 and 100 average to 95.
-/
theorem aggregate_group_averages :
    (∀ (info : ISICInfo) (g : List Boat),
      (mkAgg info g).niprProdCompAvg =
        specMeanCapped ((g.filter (fun b => !b.isNmci)).filterMap
          (fun b => b.essNiprProductCompliance)) ∧
      (mkAgg info g).niprPolEnfAvg =
        specMeanCapped ((g.filter (fun b => !b.isNmci)).filterMap
          (fun b => b.essNiprTruePolicy)) ∧
      (mkAgg info g).niprPolRawAvg =
        specMeanCapped ((g.filter (fun b => !b.isNmci)).filterMap
          (fun b => b.essNiprPolicyEnforced)) ∧
      (mkAgg info g).siprProdCompAvg =
        specMeanCapped (g.filterMap (fun b => b.essSiprProductCompliance)) ∧
      (mkAgg info g).siprPolEnfAvg =
        specMeanCapped (g.filterMap (fun b => b.essSiprTruePolicy)) ∧
      (mkAgg info g).siprPolRawAvg =
        specMeanCapped (g.filterMap (fun b => b.essSiprPolicyEnforced))) ∧
    (∀ s : Settings, aggregateByISIC [] s = ⟨[], []⟩) ∧
    (aggregateByISIC [boat90, boat100] ⟨[]⟩).csl.map (fun a => a.siprProdCompAvg) = [95] := by
  refine ⟨fun info g => mkAgg_avgs info g, fun s => rfl, ?_⟩
  have h1 : (aggregateByISIC [boat90, boat100] ⟨[]⟩).csl =
      [mkAgg ⟨"SQ1", "SQ1".take 6, "CSL"⟩ [boat90, boat100]] := rfl
  rw [h1, List.map_cons, List.map_nil,
    (mkAgg_avgs ⟨"SQ1", "SQ1".take 6, "CSL"⟩ [boat90, boat100]).2.2.2.1]
  norm_num [boat90, boat100, List.filterMap_cons, specMeanCapped, min_def]
  decide

/-! ## C10 — `groupBoatsBy` sends every falsy key to the "Unknown" bucket -/

/-- Entities (name, grouping-field value) with keys `0`, `''`, `"A"`, `false`
and `NaN`. -/
def gbBoats : List (String × JSVal) :=
  [("b0", .num (.fin 0)), ("b1", .str ""), ("b2", .str "A"),
   ("b3", .bool false), ("b4", .num .nan)]

/--
C10: `groupBoatsBy` buckets an entity under `'Unknown'` for every falsy field
value — not only `null`/`undefined` but also `0`, the empty string, `false`
and `NaN` — so such entities never form their own group; entities with the
truthy key `"A"` keep their own bucket.
-/
theorem groupBoatsBy_falsy_unknown :
    (∀ v : JSVal, jsTruthy v = false → jsGroupKey v = "Unknown") ∧
    groupBoatsBy gbBoats Prod.snd =
      [("Unknown", [("b0", JSVal.num (.fin 0)), ("b1", JSVal.str ""),
        ("b3", JSVal.bool false), ("b4", JSVal.num .nan)]),
       ("A", [("b2", JSVal.str "A")])] := by
  constructor
  · intro v hv
    simp [jsGroupKey, hv]
  · decide

/-- C10 witness: the falsy-key fact applied at the concrete value `0`. -/
theorem groupBoatsBy_falsy_unknown_witness :
    jsTruthy (JSVal.num (.fin 0)) = false ∧ jsGroupKey (JSVal.num (.fin 0)) = "Unknown" :=
  ⟨by decide, groupBoatsBy_falsy_unknown.1 (JSVal.num (.fin 0)) (by decide)⟩
